import Mathlib

/-!
# Service (libp2p/Service.cpp): session registry, reconnect loop, send paths, topic failover

A shallow embedding of `dev::p2p::Service`.  The service object is a record that is passed
through every member function; calls into collaborators that are outside the file (the
transport session, the host, the thread pool, the timer) are recorded, in program order, as a
list of `Event`s.  Log statements are not modelled.
-/

namespace P2PService

/-! ## Data model -/

/-- Peer identity `NodeID` (a fixed-size hash), read as a number. -/
abbrev NodeID := Nat

/-- The default-constructed identity `NodeID()`: every byte zero, so `!NodeID()` is true. -/
def emptyNodeID : NodeID := 0

/-- A `NodeIPEndpoint(address, udpPort, tcpPort)`; the address is kept in its textual form
(`address.to_string()`). -/
structure NodeIPEndpoint where
  address : String
  udpPort : Nat
  tcpPort : Nat
deriving DecidableEq, Repr

/-- A `NetworkException`: an integer error code and a text. -/
structure NetworkException where
  errorCode : Int
  what : String
deriving DecidableEq, Repr

/-- Modelled from the spec: the class `NetworkException` is declared in libnetwork/Common.h,
outside Service.cpp.  A default-constructed `NetworkException()` is the no-error value, error
code 0: `asyncSendMessageByTopic` seeds the failover with it as the initial, error-free
response and both synchronous senders test `errorCode() != 0` to recognise a failure. -/
def NetworkException.default : NetworkException := ⟨0, ""⟩

/-- The `DisconnectReason` values used by the service. -/
inductive DisconnectReason where
  | DuplicatePeer
  | ClientQuit
  | UserReason
deriving DecidableEq, Repr

/-- A transport session (`SessionFace`): an object identity and the remote endpoint of its
socket (`socket()->remoteEndpoint()`, address already in IPv4 form). -/
structure SessionFace where
  handle : Nat
  remoteAddress : String
  remotePort : Nat
deriving DecidableEq, Repr

/-- A `P2PSession` object: `ptr` is the identity of the object (what `shared_ptr` equality
compares), `session` the wrapped transport session (`setSession`), `nodeID` the peer identity
(`setNodeID`). -/
structure P2PSession where
  ptr : Nat
  session : SessionFace
  nodeID : NodeID
deriving DecidableEq, Repr

/-- Modelled from the spec: the class `P2PMessage` is declared outside Service.cpp; the
fields are the ones of the wire layout (length, protocol id, packet kind, sequence, payload),
where `length` is a `uint32`: `setLength` keeps the low 32 bits of its argument. -/
structure P2PMessage where
  length : Nat
  protocolID : Nat
  isRequestPacket : Bool
  seq : Nat
  buffer : List Nat
deriving DecidableEq, Repr

/-- Send options (`Options`): timeout and sub-timeout. -/
structure Options where
  timeout : Nat
  subTimeout : Nat
deriving DecidableEq, Repr

/-- A `CallbackFuncWithSession`: the empty `std::function`, a function supplied by a caller of
the service, `std::bind(&TopicStatus::onResponse, obj, _1, _2, _3)` for the `TopicStatus`
object number `obj`, or `std::bind(&SessionCallback::onResponse, callback, _1, _2, _3)` for the
`SessionCallback` object local to a synchronous send. -/
inductive Callback where
  | empty
  | user (fn : Nat)
  | topicStatus (obj : Nat)
  | sessionCallback
deriving DecidableEq, Repr

/-- The state of a `TopicStatus` object (the class local to `asyncSendMessageByTopic`). -/
structure TopicStatus where
  m_current : NodeID
  m_nodeIDs : List NodeID
  m_callback : Callback
  m_message : Option P2PMessage
  m_options : Options
deriving DecidableEq, Repr

/-- Calls that leave Service.cpp, in the order they are made.
* `disconnect s r`: `session->disconnect(r)` on a transport session;
* `setMessageHandler s p`: `session->setMessageHandler(bind(&Service::onMessage, ..., p))`;
* `start p`, `stop p r`: `p2pSession->start()`, `p2pSession->stop(r)`;
* `asyncConnect ep`: `m_host->asyncConnect(ep, bind(&Service::onConnect, ...))`;
* `newTimer ms`: `m_host->asioInterface()->newTimer(ms)` followed by `async_wait`;
* `asyncSendMessage p m o cb`: `p->session()->asyncSendMessage(m, o, continuation)` where the
  continuation captures `p` and `cb`;
* `enqueue cb e s m`: `m_host->threadPool()->enqueue(task)` where the task calls `cb(e, s, m)`;
* `call cb e s m`: the callback `cb` is called, in place, with `(e, s, m)`. -/
inductive Event where
  | disconnect (s : SessionFace) (r : DisconnectReason)
  | setMessageHandler (s : SessionFace) (p : P2PSession)
  | start (p : P2PSession)
  | stop (p : P2PSession) (r : DisconnectReason)
  | asyncConnect (ep : NodeIPEndpoint)
  | newTimer (ms : Nat)
  | asyncSendMessage (p : P2PSession) (m : P2PMessage) (o : Options) (cb : Callback)
  | enqueue (cb : Callback) (e : NetworkException) (s : Option P2PSession) (m : Option P2PMessage)
  | call (cb : Callback) (e : NetworkException) (s : Option P2PSession) (m : Option P2PMessage)
deriving DecidableEq, Repr

/-- Ways a call can end without returning: a null `shared_ptr` is dereferenced, or an empty
`std::function` is called. -/
inductive Fault where
  | nullDeref
  | badFunctionCall
deriving DecidableEq, Repr

/-- What the service reads from outside Service.cpp.
* `HEADER_LENGTH`: the constant `P2PMessage::HEADER_LENGTH`;
* `Disconnect`, `DuplicateSession`: the values of the `P2PExceptionType` enumerators;
* `DisconnectMsg`: `g_P2PExceptionMsg[Disconnect]`;
* `tcpClientAddress`, `listenPort`: `m_host->tcpClient().address()`, `m_host->listenPort()`;
* `defaultOptions`: the default-constructed `Options()`;
* `actived p`: what `p->actived()` returns;
* `topics p`: the elements of `*(p->topics())` in iteration order;
* `newSeq n`: what the call number `n` of `m_p2pMessageFactory->newSeq()` returns. -/
structure Env where
  HEADER_LENGTH : Nat
  Disconnect : Int
  DisconnectMsg : String
  DuplicateSession : Int
  tcpClientAddress : String
  listenPort : Nat
  defaultOptions : Options
  actived : P2PSession → Bool
  topics : P2PSession → List String
  newSeq : Nat → Nat

/-- The members of `Service` that the functions below read or write.
* `id`: the local identity `id()`;
* `m_sessions`: the `unordered_map<NodeID, P2PSession::Ptr>`, as its list of entries;
* `m_staticNodes`: the `map<NodeIPEndpoint, NodeID>`, as its list of entries;
* `m_protocolID2Handler`, `m_topic2Handler`: the handler tables, by protocol id and by topic;
* `topicStatusObjs`: the `TopicStatus` objects created so far (object number = position);
* `allocated`: how many `P2PSession` objects `onConnect` has created (the next identity);
* `seqCalls`: how many times `newSeq()` has been called. -/
structure Service where
  m_run : Bool
  id : NodeID
  m_sessions : List (NodeID × P2PSession)
  m_staticNodes : List (NodeIPEndpoint × NodeID)
  m_protocolID2Handler : List (Nat × Callback)
  m_topic2Handler : List (String × Callback)
  topicStatusObjs : List TopicStatus
  allocated : Nat
  seqCalls : Nat
deriving DecidableEq, Repr

/-- The service after a call and the outside calls the call made. -/
structure Outcome where
  svc : Service
  events : List Event
deriving DecidableEq, Repr

/-- Outcome of a send: as `Outcome`, with the state of the message object after the call. -/
structure SendOutcome where
  svc : Service
  events : List Event
  message : Option P2PMessage
deriving DecidableEq, Repr

/-! ## Associative containers -/

/-- Lookup `m.find(k)`: the value of the entry with key `k`, `none` for `m.end()`. -/
def mapFind {K V : Type} [DecidableEq K] : List (K × V) → K → Option V
  | [], _ => none
  | (k1, v) :: rest, k => if k1 = k then some v else mapFind rest k

/-- Assignment `it->second = v` for `it = m.find(k)`: the entry with key `k` gets the value `v`. -/
def mapAssign {K V : Type} [DecidableEq K] : List (K × V) → K → V → List (K × V)
  | [], _, _ => []
  | (k1, v1) :: rest, k, v =>
    if k1 = k then (k1, v) :: rest else (k1, v1) :: mapAssign rest k v

/-- Insertion `m.insert(make_pair(k, v))`: a new entry unless the key is present. -/
def mapInsert {K V : Type} [DecidableEq K] (m : List (K × V)) (k : K) (v : V) : List (K × V) :=
  match mapFind m k with
  | some _ => m
  | none => m ++ [(k, v)]

/-- Removal `m.erase(it)` for `it = m.find(k)`: the entry with key `k` is removed. -/
def mapErase {K V : Type} [DecidableEq K] : List (K × V) → K → List (K × V)
  | [], _ => []
  | (k1, v1) :: rest, k => if k1 = k then rest else (k1, v1) :: mapErase rest k

/-- The table after `find(k)` followed by `insert` when the key is absent and by
`it->second = v` when it is present (the body of both `registerHandler` functions). -/
def mapUpsert {K V : Type} [DecidableEq K] (m : List (K × V)) (k : K) (v : V) : List (K × V) :=
  match mapFind m k with
  | none => mapInsert m k v
  | some _ => mapAssign m k v

/-- The keys of a container, in iteration order. -/
def mapKeys {K V : Type} (m : List (K × V)) : List K := m.map Prod.fst

/-! ## Service::updateStaticNodes, onConnect, onDisconnect, onMessage -/

/-- Embedding of `Service::updateStaticNodes(_s, nodeId)`. -/
def updateStaticNodes (svc : Service) (_s : SessionFace) (nodeId : NodeID) : Service :=
  let endpoint : NodeIPEndpoint := ⟨_s.remoteAddress, _s.remotePort, _s.remotePort⟩
  match mapFind svc.m_staticNodes endpoint with
  | some _ => { svc with m_staticNodes := mapAssign svc.m_staticNodes endpoint nodeId }
  | none => svc

/-- Embedding of `Service::onConnect(e, nodeID, session)`. -/
def onConnect (env : Env) (svc : Service) (e : NetworkException) (nodeID : NodeID)
    (session : SessionFace) : Outcome :=
  if e.errorCode ≠ 0 then
    ⟨svc, []⟩
  else
    let duplicate : Bool :=
      match mapFind svc.m_sessions nodeID with
      | some it => env.actived it
      | none => false
    if duplicate then
      ⟨updateStaticNodes svc session nodeID, [Event.disconnect session DisconnectReason.DuplicatePeer]⟩
    else if nodeID = svc.id then
      ⟨updateStaticNodes svc session svc.id, [Event.disconnect session DisconnectReason.DuplicatePeer]⟩
    else
      let p2pSession : P2PSession := ⟨svc.allocated, session, nodeID⟩
      let svc1 := updateStaticNodes { svc with allocated := svc.allocated + 1 } session nodeID
      let sessions :=
        match mapFind svc1.m_sessions nodeID with
        | some _ => mapAssign svc1.m_sessions nodeID p2pSession
        | none => mapInsert svc1.m_sessions nodeID p2pSession
      ⟨{ svc1 with m_sessions := sessions },
        [Event.setMessageHandler session p2pSession, Event.start p2pSession]⟩

/-- The loop `for (auto it : m_staticNodes)` of `onDisconnect`.  The loop variable is declared
`auto it`, a copy of the element, and `it.second = NodeID()` assigns to that copy; the result
is the list of the copies as the loop leaves them (the loop stops at the first match).  The
container itself is not written. -/
def onDisconnectLoop : List (NodeIPEndpoint × NodeID) → NodeID → List (NodeIPEndpoint × NodeID)
  | [], _ => []
  | it :: rest, nodeID =>
    if it.2 = nodeID then [(it.1, emptyNodeID)] else it :: onDisconnectLoop rest nodeID

/-- Embedding of `Service::onDisconnect(e, p2pSession)`.  The copies written by the loop over
`m_staticNodes` are dropped at the end of each iteration, `m_staticNodes` keeps its entries. -/
def onDisconnect (svc : Service) (_e : NetworkException) (p2pSession : P2PSession) : Outcome :=
  match mapFind svc.m_sessions p2pSession.nodeID with
  | some it =>
    if it.ptr = p2pSession.ptr then
      let sessions := mapErase svc.m_sessions p2pSession.nodeID
      let _copies := onDisconnectLoop svc.m_staticNodes p2pSession.nodeID
      ⟨{ svc with m_sessions := sessions }, []⟩
    else
      ⟨svc, []⟩
  | none => ⟨svc, []⟩

/-- Embedding of `Service::onMessage(e, session, message, p2pSession)`. -/
def onMessage (env : Env) (svc : Service) (e : NetworkException) (_session : SessionFace)
    (message : Option P2PMessage) (p2pSession : P2PSession) : Except Fault Outcome :=
  if e.errorCode ≠ 0 then
    if e.errorCode ≠ env.DuplicateSession then
      let r := onDisconnect svc e p2pSession
      .ok ⟨r.svc, Event.stop p2pSession DisconnectReason.UserReason :: r.events⟩
    else
      .ok ⟨svc, []⟩
  else
    match message with
    | none => .error Fault.nullDeref
    | some p2pMessage =>
      if p2pMessage.isRequestPacket then
        let callback : Callback :=
          match mapFind svc.m_protocolID2Handler p2pMessage.protocolID with
          | some h => h
          | none => Callback.empty
        if callback ≠ Callback.empty then
          .ok ⟨svc, [Event.enqueue callback e (some p2pSession) (some p2pMessage)]⟩
        else
          .ok ⟨svc, []⟩
      else
        .ok ⟨svc, []⟩

/-! ## Service::isConnected, heartBeat -/

/-- Embedding of `Service::isConnected(nodeID)`. -/
def isConnected (env : Env) (svc : Service) (nodeID : NodeID) : Bool :=
  match mapFind svc.m_sessions nodeID with
  | none => false
  | some it => if !env.actived it then false else true

/-- The constant `CHECK_INTERVEL`. -/
def CHECK_INTERVEL : Nat := 5000

/-- One iteration of the loop of `heartBeat` over the snapshot of `m_staticNodes`: the
connect attempt it issues, if it does not `continue`. -/
def heartBeatEntry (env : Env) (svc : Service) (it : NodeIPEndpoint × NodeID) : Option Event :=
  if it.1.address = env.tcpClientAddress ∧ it.1.tcpPort = env.listenPort then none
  else if it.2 = svc.id then none
  else if it.2 ≠ emptyNodeID ∧ isConnected env svc it.2 = true then none
  else if it.1.address.isEmpty then none
  else some (Event.asyncConnect it.1)

/-- Embedding of `Service::heartBeat()`. -/
def heartBeat (env : Env) (svc : Service) : Outcome :=
  if !svc.m_run then
    ⟨svc, []⟩
  else
    let staticNodes := svc.m_staticNodes
    ⟨svc, staticNodes.filterMap (heartBeatEntry env svc) ++ [Event.newTimer CHECK_INTERVEL]⟩

/-! ## Service::getPeersByTopic, asyncSendMessageByNodeID, asyncSendMessageByTopic -/

/-- The inner loop of `getPeersByTopic`: one `push_back(nodeID)` for every element `j` of the
session's topics with `j == topic`. -/
def getPeersByTopicInner (nodeID : NodeID) (topic : String) : List String → List NodeID
  | [] => []
  | j :: rest =>
    if j = topic then nodeID :: getPeersByTopicInner nodeID topic rest
    else getPeersByTopicInner nodeID topic rest

/-- The outer loop of `getPeersByTopic` over the copy of `m_sessions`. -/
def getPeersByTopicOuter (env : Env) (topic : String) : List (NodeID × P2PSession) → List NodeID
  | [] => []
  | it :: rest =>
    getPeersByTopicInner it.1 topic (env.topics it.2) ++ getPeersByTopicOuter env topic rest

/-- Embedding of `Service::getPeersByTopic(topic)`. -/
def getPeersByTopic (env : Env) (svc : Service) (topic : String) : List NodeID :=
  getPeersByTopicOuter env topic svc.m_sessions

/-- Embedding of `Service::asyncSendMessageByNodeID(nodeID, message, callback, options)`.  In the `else`
branch the `NetworkException` thrown is caught by the `catch (std::exception&)` of the same
function, whose handler, for a non-empty callback, enqueues a task on the thread pool.
`setLength` receives the sum `HEADER_LENGTH + buffer()->size()` and stores it in the 32-bit
length field. -/
def asyncSendMessageByNodeID (env : Env) (svc : Service) (nodeID : NodeID)
    (message : Option P2PMessage) (callback : Callback) (options : Options) :
    Except Fault SendOutcome :=
  let found : Option P2PSession :=
    match mapFind svc.m_sessions nodeID with
    | some it => if env.actived it then some it else none
    | none => none
  match found with
  | some session =>
    match message with
    | none => .error Fault.nullDeref
    | some m =>
      let m1 : P2PMessage := { m with length := (env.HEADER_LENGTH + m.buffer.length) % 2 ^ 32 }
      if m1.seq = 0 then
        let m2 : P2PMessage := { m1 with seq := env.newSeq svc.seqCalls }
        .ok ⟨{ svc with seqCalls := svc.seqCalls + 1 },
          [Event.asyncSendMessage session m2 options callback], some m2⟩
      else
        .ok ⟨svc, [Event.asyncSendMessage session m1 options callback], some m1⟩
  | none =>
    if callback ≠ Callback.empty then
      .ok ⟨svc, [Event.enqueue callback ⟨env.Disconnect, env.DisconnectMsg⟩ none none], message⟩
    else
      .ok ⟨svc, [], message⟩

/-- The continuation that `asyncSendMessageByNodeID` hands to the transport, a lambda that
captures `session` and `callback`: called by the transport with `(e, message)`. -/
def sendContinuation (session : P2PSession) (callback : Callback) (e : NetworkException)
    (message : Option P2PMessage) : List Event :=
  if callback ≠ Callback.empty then [Event.call callback e (some session) message] else []

/-- The call `m_callback(e, session, msg)` inside `TopicStatus::onResponse`. -/
def callCallback (svc : Service) (cb : Callback) (e : NetworkException)
    (session : Option P2PSession) (msg : Option P2PMessage) : Except Fault SendOutcome :=
  if cb = Callback.empty then .error Fault.badFunctionCall
  else .ok ⟨svc, [Event.call cb e session msg], msg⟩

/-- Embedding of `TopicStatus::onResponse(e, session, msg)` on the `TopicStatus` object number `obj`.
`ri` is the value drawn from the random generator, `index(rng)`, a number between 0 and
`m_nodeIDs.size() - 1`: the draw is reduced modulo the size of the pool. -/
def TopicStatus.onResponse (env : Env) (svc : Service) (obj : Nat) (ri : Nat)
    (e : NetworkException) (session : Option P2PSession) (msg : Option P2PMessage) :
    Except Fault SendOutcome :=
  match svc.topicStatusObjs.get? obj with
  | none => .error Fault.nullDeref
  | some ts =>
    if e.errorCode ≠ 0 ∨ ts.m_current = emptyNodeID then
      if ts.m_nodeIDs.isEmpty then
        callCallback svc ts.m_callback NetworkException.default session none
      else
        let i := ri % ts.m_nodeIDs.length
        let current := ts.m_nodeIDs.getD i emptyNodeID
        let ts1 : TopicStatus := { ts with m_current := current, m_nodeIDs := ts.m_nodeIDs.eraseIdx i }
        let svc1 : Service := { svc with topicStatusObjs := svc.topicStatusObjs.set obj ts1 }
        asyncSendMessageByNodeID env svc1 current msg (Callback.topicStatus obj) ts.m_options
    else
      callCallback svc ts.m_callback e session msg

/-- Embedding of `Service::asyncSendMessageByTopic(topic, message, callback, options)`; `ri` is the random
draw of the first `onResponse`. -/
def asyncSendMessageByTopic (env : Env) (svc : Service) (ri : Nat) (topic : String)
    (message : Option P2PMessage) (callback : Callback) (options : Options) :
    Except Fault SendOutcome :=
  let nodeIDsToSend := getPeersByTopic env svc topic
  if nodeIDsToSend.length = 0 then
    .ok ⟨svc, [], message⟩
  else
    let topicStatus : TopicStatus := ⟨emptyNodeID, nodeIDsToSend, callback, message, options⟩
    let obj := svc.topicStatusObjs.length
    let svc1 : Service := { svc with topicStatusObjs := svc.topicStatusObjs ++ [topicStatus] }
    TopicStatus.onResponse env svc1 obj ri NetworkException.default none message

/-- A callback is called with `(e, session, msg)`, by a thread-pool task or by the transport
continuation: a caller-supplied function is recorded as called, a bound
`TopicStatus::onResponse` runs (with the random draw `ri`), a bound
`SessionCallback::onResponse` stores its arguments and makes no outside call. -/
def runCallback (env : Env) (svc : Service) (ri : Nat) (cb : Callback) (e : NetworkException)
    (session : Option P2PSession) (msg : Option P2PMessage) : Except Fault SendOutcome :=
  match cb with
  | Callback.empty => .error Fault.badFunctionCall
  | Callback.user fn => .ok ⟨svc, [Event.call (Callback.user fn) e session msg], msg⟩
  | Callback.topicStatus obj => TopicStatus.onResponse env svc obj ri e session msg
  | Callback.sessionCallback => .ok ⟨svc, [], msg⟩

/-! ## Service::sendMessageByNodeID -/

/-- What a `throw` hands to the caller: an object whose type is (derived from)
`NetworkException`, with its error code and text, or an object whose only standard base is
`std::exception`, which has neither. -/
inductive Thrown where
  | networkException (e : NetworkException)
  | stdException
deriving DecidableEq, Repr

/-- The part of `sendMessageByNodeID` that follows the wait on the mutex; `error` and
`response` are the members of the `SessionCallback` object, as `onResponse` stored them.
Inside the `try` block `BOOST_THROW_EXCEPTION(error)` throws the `NetworkException` when its
code is not 0.  That exception is caught by `catch (std::exception& e)` of the same function,
whose handler ends in `BOOST_THROW_EXCEPTION(e)`: the object thrown there is a copy of `e`
made from its static type `std::exception`, so the caller receives a `std::exception`. -/
def sendMessageByNodeIDResult (error : NetworkException) (response : Option P2PMessage) :
    Except Thrown (Option P2PMessage) :=
  let tryBlock : Except Thrown (Option P2PMessage) :=
    if error.errorCode ≠ 0 then .error (Thrown.networkException error) else .ok response
  match tryBlock with
  | .ok r => .ok r
  | .error _ => .error Thrown.stdException

/-- Outcome of a synchronous send: the service, the outside calls made, and what the caller
gets, a message pointer or an exception. -/
structure SyncOutcome where
  svc : Service
  events : List Event
  result : Except Thrown (Option P2PMessage)

/-- What reaches `SessionCallback::onResponse` after the asynchronous send made the outside
calls `events`: the arguments of the task it enqueued on the thread pool, if it enqueued one;
otherwise what the transport passes to the continuation, `reply`. -/
def deliveredOutcome (events : List Event) (reply : NetworkException × Option P2PMessage) :
    NetworkException × Option P2PMessage :=
  match events with
  | [Event.enqueue _ e _ m] => (e, m)
  | _ => reply

/-- Embedding of `Service::sendMessageByNodeID(nodeID, message)`; `reply` is what the transport
passes to the continuation of the asynchronous send, when the send reaches the transport. -/
def sendMessageByNodeID (env : Env) (svc : Service) (nodeID : NodeID)
    (message : Option P2PMessage) (reply : NetworkException × Option P2PMessage) :
    Except Fault SyncOutcome :=
  match asyncSendMessageByNodeID env svc nodeID message Callback.sessionCallback
      env.defaultOptions with
  | .error f => .error f
  | .ok r =>
    let delivered := deliveredOutcome r.events reply
    .ok ⟨r.svc, r.events, sendMessageByNodeIDResult delivered.1 delivered.2⟩

/-! ## Service::asyncMulticastMessageByTopic, asyncMulticastMessageByNodeIDList, asyncBroadcastMessage -/

/-- The loop shared by the three fire-and-forget senders: for each identity, in order,
`asyncSendMessageByNodeID(nodeID, message, CallbackFuncWithSession(), Options())`.  The
message object is the same in every iteration, so each send sees what the previous one wrote
to it. -/
def sendToEach (env : Env) : Service → Option P2PMessage → List NodeID → Except Fault SendOutcome
  | svc, message, [] => .ok ⟨svc, [], message⟩
  | svc, message, nodeID :: rest =>
    match asyncSendMessageByNodeID env svc nodeID message Callback.empty env.defaultOptions with
    | .error f => .error f
    | .ok r =>
      match sendToEach env r.svc r.message rest with
      | .error f => .error f
      | .ok r2 => .ok ⟨r2.svc, r.events ++ r2.events, r2.message⟩

/-- Embedding of `Service::asyncMulticastMessageByTopic(topic, message)`. -/
def asyncMulticastMessageByTopic (env : Env) (svc : Service) (topic : String)
    (message : Option P2PMessage) : Except Fault SendOutcome :=
  let nodeIDsToSend := getPeersByTopic env svc topic
  sendToEach env svc message nodeIDsToSend

/-- Embedding of `Service::asyncMulticastMessageByNodeIDList(nodeIDs, message)`. -/
def asyncMulticastMessageByNodeIDList (env : Env) (svc : Service) (nodeIDs : List NodeID)
    (message : Option P2PMessage) : Except Fault SendOutcome :=
  sendToEach env svc message nodeIDs

/-- Embedding of `Service::asyncBroadcastMessage(message, options)`: the loop runs over a copy
of `m_sessions` and sends to the key of each entry. -/
def asyncBroadcastMessage (env : Env) (svc : Service) (message : Option P2PMessage)
    (_options : Options) : Except Fault SendOutcome :=
  let sessions := svc.m_sessions
  sendToEach env svc message (mapKeys sessions)

/-! ## Service::registerHandlerByProtoclID, registerHandlerByTopic -/

/-- Embedding of `Service::registerHandlerByProtoclID(protocolID, handler)`. -/
def registerHandlerByProtoclID (svc : Service) (protocolID : Nat) (handler : Callback) :
    Service :=
  match mapFind svc.m_protocolID2Handler protocolID with
  | none =>
    { svc with m_protocolID2Handler := mapInsert svc.m_protocolID2Handler protocolID handler }
  | some _ =>
    { svc with m_protocolID2Handler := mapAssign svc.m_protocolID2Handler protocolID handler }

/-- Embedding of `Service::registerHandlerByTopic(topic, handler)`. -/
def registerHandlerByTopic (svc : Service) (topic : String) (handler : Callback) : Service :=
  match mapFind svc.m_topic2Handler topic with
  | none => { svc with m_topic2Handler := mapInsert svc.m_topic2Handler topic handler }
  | some _ => { svc with m_topic2Handler := mapAssign svc.m_topic2Handler topic handler }

/-! ## Reading the outside calls -/

/-- The session a send finds for an identity: the registry entry, if there is one and its
session is active (the condition of the `if` in `asyncSendMessageByNodeID`). -/
def activeSession (env : Env) (sessions : List (NodeID × P2PSession)) (nodeID : NodeID) :
    Option P2PSession :=
  match mapFind sessions nodeID with
  | some it => if env.actived it then some it else none
  | none => none

/-- The message `msg` is the message `m` as a send started with the service `svc` leaves it:
same payload, protocol id and packet kind; the length recomputed from the payload; the
sequence of `m` when that is not 0, otherwise a value returned by a `newSeq()` call made
since. -/
def IsSentFormOf (env : Env) (svc : Service) (m msg : P2PMessage) : Prop :=
  msg.buffer = m.buffer ∧ msg.protocolID = m.protocolID
    ∧ msg.isRequestPacket = m.isRequestPacket
    ∧ msg.length = (env.HEADER_LENGTH + m.buffer.length) % 2 ^ 32
    ∧ (m.seq ≠ 0 → msg.seq = m.seq)
    ∧ (m.seq = 0 → ∃ n, svc.seqCalls ≤ n ∧ msg.seq = env.newSeq n)

/-- The message object `cur` is the object `m` after sends started with the service `svc`:
same payload, protocol id and packet kind; the sequence of `m` when that is not 0, otherwise
still 0 or a value returned by a `newSeq()` call made since. -/
def IsSameObject (env : Env) (svc : Service) (m cur : P2PMessage) : Prop :=
  cur.buffer = m.buffer ∧ cur.protocolID = m.protocolID
    ∧ cur.isRequestPacket = m.isRequestPacket
    ∧ (m.seq ≠ 0 → cur.seq = m.seq)
    ∧ (m.seq = 0 → cur.seq = 0 ∨ ∃ n, svc.seqCalls ≤ n ∧ cur.seq = env.newSeq n)

/-- The sessions whose transport was handed a message, one per `asyncSendMessage` call, in
the order of the calls. -/
def sendTargets : List Event → List P2PSession
  | [] => []
  | Event.asyncSendMessage p _ _ _ :: rest => p :: sendTargets rest
  | _ :: rest => sendTargets rest

/-! ## Transition system of the registry -/

/-- One handler call on the service: a connection completion, a disconnect, or a message
arrival that returns. -/
inductive Step : Service → Service → Prop where
  | onConnect (env : Env) (svc : Service) (e : NetworkException) (nodeID : NodeID)
      (session : SessionFace) : Step svc (onConnect env svc e nodeID session).svc
  | onDisconnect (svc : Service) (e : NetworkException) (p : P2PSession) :
      Step svc (onDisconnect svc e p).svc
  | onMessage (env : Env) (svc : Service) (e : NetworkException) (session : SessionFace)
      (message : Option P2PMessage) (p : P2PSession) (r : Outcome) :
      onMessage env svc e session message p = .ok r → Step svc r.svc

/-- The services reachable from one with an empty registry by handler calls. -/
inductive Reachable : Service → Prop where
  | init (svc : Service) : svc.m_sessions = [] → Reachable svc
  | step (a b : Service) : Reachable a → Step a b → Reachable b

/-! ## Concrete inputs -/

/-- An environment: a session is active unless its object identity is below 10, every session
subscribes to the topic "t", the sequence allocator counts from 100. -/
def env0 : Env where
  HEADER_LENGTH := 12
  Disconnect := 3
  DisconnectMsg := "Disconnect"
  DuplicateSession := 6
  tcpClientAddress := "127.0.0.1"
  listenPort := 30300
  defaultOptions := ⟨0, 0⟩
  actived := fun p => decide (10 ≤ p.ptr)
  topics := fun _ => ["t"]
  newSeq := fun n => 100 + n

/-- A running service with local identity 5, nothing connected, nothing configured. -/
def svc0 : Service := ⟨true, 5, [], [], [], [], [], 10, 0⟩

/-- A no-error completion. -/
def noError : NetworkException := ⟨0, ""⟩

/-- A transport session from 10.0.0.1:30301. -/
def sess1 : SessionFace := ⟨1, "10.0.0.1", 30301⟩

/-- A second transport session, from 10.0.0.2:30302. -/
def sess2 : SessionFace := ⟨2, "10.0.0.2", 30302⟩

/-- A request message with a 3-byte payload and no sequence yet. -/
def msg0 : P2PMessage := ⟨0, 1, true, 0, [1, 2, 3]⟩

/-- Send options. -/
def opts0 : Options := ⟨1000, 100⟩

/-- The error a failed lookup produces under `env0`: `NetworkException(Disconnect, ...)`. -/
def disconnectError : NetworkException := ⟨3, "Disconnect"⟩

/-- The service `svc0` with one peer, identity 7, connected through `sess1`; its session
object has identity 10 and is active under `env0`. -/
def svcOne : Service := ⟨true, 5, [(7, ⟨10, sess1, 7⟩)], [], [], [], [], 11, 0⟩

/-- The endpoint `sess1` connects from, as `updateStaticNodes` builds it. -/
def endpoint1 : NodeIPEndpoint := ⟨"10.0.0.1", 30301, 30301⟩

/-- The service `svc0` with `endpoint1` configured as a static node, identity not yet known. -/
def svcStatic : Service := ⟨true, 5, [], [(endpoint1, emptyNodeID)], [], [], [], 10, 0⟩

/-- The service `svcOne` with `endpoint1` configured as a static node of identity 7. -/
def svcOneStatic : Service := ⟨true, 5, [(7, ⟨10, sess1, 7⟩)], [(endpoint1, 7)], [], [], [], 11, 0⟩

/-- The service `svcStatic` after an error-free connection completion on `sess1`, from
`endpoint1`, that reports the empty identity. -/
def svcEmptyIdentity : Service := (onConnect env0 svcStatic noError emptyNodeID sess1).svc

/-- A connection completion that reports an error. -/
def connectError : NetworkException := ⟨5, "connect error"⟩

/-- A service whose only session, for identity 1, is inactive under `env0` (object identity
1) and, as every session under `env0`, subscribes to the topic "t". -/
def svcInactive : Service := ⟨true, 5, [(1, ⟨1, sess1, 1⟩)], [], [], [], [], 11, 0⟩

/-- The service `svc0` with two protocol handlers registered: the caller-supplied function 4
for protocol 1, and an empty `std::function` for protocol 2. -/
def svcHandlers : Service :=
  ⟨true, 5, [], [], [(1, Callback.user 4), (2, Callback.empty)], [], [], 10, 0⟩

/-- A transport error whose code is `DuplicateSession` under `env0`. -/
def duplicateSessionError : NetworkException := ⟨6, "duplicate session"⟩

/-- A request message for protocol 2. -/
def msgProto2 : P2PMessage := ⟨0, 2, true, 0, [1, 2, 3]⟩

/-- A request message for protocol 9, which has no entry in `svcHandlers`. -/
def msgProto9 : P2PMessage := ⟨0, 9, true, 0, [1, 2, 3]⟩

/-- A payload of 2^32 - 12 bytes, all zero. -/
def hugePayload : List Nat := List.replicate (2 ^ 32 - 12) 0

/-- A request message that carries `hugePayload`, the sequence number 5 and, on entry, the
length 7. -/
def msgHuge : P2PMessage := ⟨7, 1, true, 5, hugePayload⟩

/-- A message that already carries the sequence number 42. -/
def msgSeq42 : P2PMessage := ⟨0, 1, true, 42, [1, 2, 3]⟩

/-- A service with two subscribers of the topic "t": the session of identity 1 is inactive
under `env0` (object identity 1), the session of identity 3 is active (object identity 10). -/
def svcAC : Service :=
  ⟨true, 5, [(1, ⟨1, sess1, 1⟩), (3, ⟨10, ⟨3, "10.0.0.3", 30303⟩, 3⟩)], [], [], [], [], 11, 0⟩

/-- A service with three subscribers of the topic "t": the sessions of A = 1 and B = 2 are
inactive under `env0` (object identities 1 and 2), the session of C = 3 is active (object
identity 10). -/
def svcABC : Service :=
  ⟨true, 5, [(1, ⟨1, sess1, 1⟩), (2, ⟨2, sess2, 2⟩), (3, ⟨10, ⟨3, "10.0.0.3", 30303⟩, 3⟩)],
    [], [], [], [], 11, 0⟩

end P2PService

namespace P2PService

/-! ## Lemmas on the containers -/

theorem mapKeys_mapAssign {K V : Type} [DecidableEq K] (m : List (K × V)) (k : K) (v : V) :
    mapKeys (mapAssign m k v) = mapKeys m := by
  induction m with
  | nil => rfl
  | cons hd tl ih =>
    obtain ⟨k1, v1⟩ := hd
    unfold mapAssign
    by_cases h : k1 = k
    · simp [h, mapKeys]
    · simp only [h, if_false]
      simp only [mapKeys, List.map_cons] at ih ⊢
      rw [ih]

theorem mapFind_eq_none_iff {K V : Type} [DecidableEq K] (m : List (K × V)) (k : K) :
    mapFind m k = none ↔ k ∉ mapKeys m := by
  induction m with
  | nil => simp [mapFind, mapKeys]
  | cons hd tl ih =>
    obtain ⟨k1, v1⟩ := hd
    unfold mapFind
    by_cases h : k1 = k
    · simp [h, mapKeys]
    · simp only [h, if_false, ih]
      simp [mapKeys, Ne.symm h]

theorem mapFind_mem {K V : Type} [DecidableEq K] (m : List (K × V)) (k : K) (v : V)
    (h : mapFind m k = some v) : (k, v) ∈ m := by
  induction m with
  | nil => simp [mapFind] at h
  | cons hd tl ih =>
    obtain ⟨k1, v1⟩ := hd
    unfold mapFind at h
    by_cases hk : k1 = k
    · simp [hk] at h
      simp [hk, h]
    · simp only [hk, if_false] at h
      exact List.mem_cons_of_mem _ (ih h)

theorem mem_mapKeys_of_mem {K V : Type} (m : List (K × V)) (k : K) (v : V) (h : (k, v) ∈ m) :
    k ∈ mapKeys m := by
  unfold mapKeys
  exact List.mem_map.mpr ⟨(k, v), h, rfl⟩

theorem mapFind_of_mem {K V : Type} [DecidableEq K] (m : List (K × V)) (k : K) (v : V)
    (hn : (mapKeys m).Nodup) (h : (k, v) ∈ m) : mapFind m k = some v := by
  induction m with
  | nil => simp at h
  | cons hd tl ih =>
    obtain ⟨k1, v1⟩ := hd
    simp only [mapKeys, List.map_cons, List.nodup_cons] at hn
    unfold mapFind
    rcases List.mem_cons.mp h with heq | htl
    · simp only [Prod.mk.injEq] at heq
      simp [heq.1, heq.2]
    · have hk : k1 ≠ k := by
        intro hk
        apply hn.1
        rw [hk]
        exact mem_mapKeys_of_mem tl k v htl
      simp only [hk, if_false]
      exact ih hn.2 htl

theorem mapKeys_mapInsert_subset {K V : Type} [DecidableEq K] (m : List (K × V)) (k : K) (v : V)
    (x : K) (hx : x ∈ mapKeys (mapInsert m k v)) : x ∈ mapKeys m ∨ x = k := by
  unfold mapInsert at hx
  cases hf : mapFind m k with
  | some w =>
    simp only [hf] at hx
    exact Or.inl hx
  | none =>
    simp only [hf, mapKeys, List.map_append, List.mem_append, List.map_cons, List.map_nil,
      List.mem_singleton] at hx
    exact hx

theorem mapKeys_mapErase_subset {K V : Type} [DecidableEq K] (m : List (K × V)) (k : K)
    (x : K) (hx : x ∈ mapKeys (mapErase m k)) : x ∈ mapKeys m := by
  induction m with
  | nil => simpa [mapErase] using hx
  | cons hd tl ih =>
    obtain ⟨k1, v1⟩ := hd
    unfold mapErase at hx
    by_cases h : k1 = k
    · simp only [h, if_true] at hx
      simp only [mapKeys, List.map_cons, List.mem_cons]
      exact Or.inr hx
    · simp only [h, if_false, mapKeys, List.map_cons, List.mem_cons] at hx ⊢
      rcases hx with hx | hx
      · exact Or.inl hx
      · exact Or.inr (ih hx)

theorem filter_key_of_mapFind {K V : Type} [DecidableEq K] (m : List (K × V)) (k : K) (v : V)
    (hn : (mapKeys m).Nodup) (h : mapFind m k = some v) :
    m.filter (fun it => decide (it.1 = k)) = [(k, v)] := by
  induction m with
  | nil => simp [mapFind] at h
  | cons hd tl ih =>
    obtain ⟨k1, v1⟩ := hd
    simp only [mapKeys, List.map_cons, List.nodup_cons] at hn
    unfold mapFind at h
    by_cases hk : k1 = k
    · simp only [hk, if_true, Option.some.injEq] at h
      subst hk
      subst h
      have hnone : ∀ it ∈ tl, ¬ (it.1 = k1) := by
        intro it hit heq
        apply hn.1
        rw [← heq]
        exact List.mem_map.mpr ⟨it, hit, rfl⟩
      have : tl.filter (fun it => decide (it.1 = k1)) = [] := by
        apply List.filter_eq_nil_iff.mpr
        intro it hit
        simpa using hnone it hit
      simp [List.filter_cons, this]
    · simp only [hk, if_false] at h
      simp only [List.filter_cons, hk, decide_False]
      exact ih hn.2 h

theorem mapFind_mapAssign_self {K V : Type} [DecidableEq K] (m : List (K × V)) (k : K) (v w : V)
    (h : mapFind m k = some w) : mapFind (mapAssign m k v) k = some v := by
  induction m with
  | nil => simp [mapFind] at h
  | cons hd tl ih =>
    obtain ⟨k1, v1⟩ := hd
    unfold mapFind at h
    unfold mapAssign
    by_cases hk : k1 = k
    · simp [hk, mapFind]
    · simp only [hk, if_false] at h ⊢
      unfold mapFind
      simp only [hk, if_false]
      exact ih h

theorem mem_getPeersByTopicInner (nodeID : NodeID) (topic : String) (ts : List String)
    (x : NodeID) : x ∈ getPeersByTopicInner nodeID topic ts ↔ x = nodeID ∧ topic ∈ ts := by
  induction ts with
  | nil => simp [getPeersByTopicInner]
  | cons j rest ih =>
    unfold getPeersByTopicInner
    by_cases hj : j = topic
    · simp only [hj, if_true, List.mem_cons, ih, true_or, and_true]
      constructor
      · rintro (h | h)
        · exact h
        · exact h.1
      · intro h
        exact Or.inl h
    · simp only [hj, if_false, ih, List.mem_cons]
      constructor
      · rintro ⟨h1, h2⟩
        exact ⟨h1, Or.inr h2⟩
      · rintro ⟨h1, h2 | h2⟩
        · exact absurd h2.symm hj
        · exact ⟨h1, h2⟩

theorem count_getPeersByTopicInner_le (nodeID : NodeID) (topic : String) (ts : List String)
    (hts : ts.Nodup) (x : NodeID) : (getPeersByTopicInner nodeID topic ts).count x ≤ 1 := by
  induction ts with
  | nil => simp [getPeersByTopicInner]
  | cons j rest ih =>
    rw [List.nodup_cons] at hts
    unfold getPeersByTopicInner
    by_cases hj : j = topic
    · simp only [hj, if_true]
      have hnot : x ∉ getPeersByTopicInner nodeID topic rest := by
        rw [mem_getPeersByTopicInner]
        rintro ⟨_, h2⟩
        exact hts.1 (hj ▸ h2)
      rw [List.count_cons, List.count_eq_zero_of_not_mem hnot]
      split <;> simp
    · simp only [hj, if_false]
      exact ih hts.2

theorem mem_getPeersByTopicOuter (env : Env) (topic : String) (m : List (NodeID × P2PSession))
    (x : NodeID) :
    x ∈ getPeersByTopicOuter env topic m ↔ ∃ p, (x, p) ∈ m ∧ topic ∈ env.topics p := by
  induction m with
  | nil => simp [getPeersByTopicOuter]
  | cons it rest ih =>
    obtain ⟨k, q⟩ := it
    unfold getPeersByTopicOuter
    rw [List.mem_append, mem_getPeersByTopicInner, ih]
    constructor
    · rintro (⟨h1, h2⟩ | ⟨p, hp, ht⟩)
      · exact ⟨q, by simp [h1], h2⟩
      · exact ⟨p, List.mem_cons_of_mem _ hp, ht⟩
    · rintro ⟨p, hp, ht⟩
      rcases List.mem_cons.mp hp with heq | hp
      · simp only [Prod.mk.injEq] at heq
        exact Or.inl ⟨heq.1, heq.2 ▸ ht⟩
      · exact Or.inr ⟨p, hp, ht⟩

theorem count_getPeersByTopicOuter_le (env : Env) (topic : String)
    (m : List (NodeID × P2PSession)) (hkeys : (mapKeys m).Nodup)
    (htopics : ∀ it ∈ m, (env.topics it.2).Nodup) (x : NodeID) :
    (getPeersByTopicOuter env topic m).count x ≤ 1 := by
  induction m with
  | nil => simp [getPeersByTopicOuter]
  | cons it rest ih =>
    obtain ⟨k, q⟩ := it
    simp only [mapKeys, List.map_cons, List.nodup_cons] at hkeys
    unfold getPeersByTopicOuter
    rw [List.count_append]
    have hrest := ih hkeys.2 (fun it hit => htopics it (List.mem_cons_of_mem _ hit))
    have hfirst := count_getPeersByTopicInner_le k topic (env.topics q)
      (htopics (k, q) (List.mem_cons_self _ _)) x
    by_cases hx : x = k
    · have hnot : x ∉ getPeersByTopicOuter env topic rest := by
        rw [mem_getPeersByTopicOuter]
        rintro ⟨p, hp, _⟩
        apply hkeys.1
        rw [← hx]
        exact List.mem_map.mpr ⟨(x, p), hp, rfl⟩
      rw [List.count_eq_zero_of_not_mem hnot]
      simpa using hfirst
    · have hnot : x ∉ getPeersByTopicInner k topic (env.topics q) := by
        rw [mem_getPeersByTopicInner]
        rintro ⟨h1, _⟩
        exact hx h1
      rw [List.count_eq_zero_of_not_mem hnot]
      simpa using hrest

theorem updateStaticNodes_find (svc : Service) (s : SessionFace) (n : NodeID)
    (h : (⟨s.remoteAddress, s.remotePort, s.remotePort⟩ : NodeIPEndpoint)
      ∈ mapKeys svc.m_staticNodes) :
    mapFind (updateStaticNodes svc s n).m_staticNodes ⟨s.remoteAddress, s.remotePort, s.remotePort⟩
      = some n := by
  unfold updateStaticNodes
  dsimp only
  cases hf : mapFind svc.m_staticNodes ⟨s.remoteAddress, s.remotePort, s.remotePort⟩ with
  | none => exact absurd h ((mapFind_eq_none_iff _ _).mp hf)
  | some w => exact mapFind_mapAssign_self _ _ _ _ hf

/-! ## Lemmas on updateStaticNodes, onConnect, onDisconnect, onMessage -/

theorem updateStaticNodes_sessions (svc : Service) (s : SessionFace) (n : NodeID) :
    (updateStaticNodes svc s n).m_sessions = svc.m_sessions := by
  unfold updateStaticNodes
  dsimp only
  split <;> rfl

theorem updateStaticNodes_id (svc : Service) (s : SessionFace) (n : NodeID) :
    (updateStaticNodes svc s n).id = svc.id := by
  unfold updateStaticNodes
  dsimp only
  split <;> rfl

theorem onConnect_id (env : Env) (svc : Service) (e : NetworkException) (nodeID : NodeID)
    (session : SessionFace) : (onConnect env svc e nodeID session).svc.id = svc.id := by
  by_cases he : e.errorCode = 0
  · by_cases hid : nodeID = svc.id
    · cases hf : mapFind svc.m_sessions nodeID with
      | none => simp [onConnect, he, hf, hid, updateStaticNodes_id]
      | some it =>
        by_cases hact : env.actived it = true
        · simp [onConnect, he, hf, hact, updateStaticNodes_id]
        · simp [onConnect, he, hf, hact, hid, updateStaticNodes_id]
    · cases hf : mapFind svc.m_sessions nodeID with
      | none => simp [onConnect, he, hf, hid, updateStaticNodes_id]
      | some it =>
        by_cases hact : env.actived it = true
        · simp [onConnect, he, hf, hact, updateStaticNodes_id]
        · simp [onConnect, he, hf, hact, hid, updateStaticNodes_id]
  · simp [onConnect, he]

theorem onConnect_keys (env : Env) (svc : Service) (e : NetworkException) (nodeID : NodeID)
    (session : SessionFace) (x : NodeID)
    (hx : x ∈ mapKeys (onConnect env svc e nodeID session).svc.m_sessions) :
    x ∈ mapKeys svc.m_sessions ∨ (x = nodeID ∧ nodeID ≠ svc.id) := by
  by_cases he : e.errorCode = 0
  · by_cases hid : nodeID = svc.id
    · cases hf : mapFind svc.m_sessions nodeID with
      | none =>
        simp [onConnect, he, hf, hid, updateStaticNodes_sessions] at hx
        exact Or.inl hx
      | some it =>
        by_cases hact : env.actived it = true
        · simp [onConnect, he, hf, hact, updateStaticNodes_sessions] at hx
          exact Or.inl hx
        · simp [onConnect, he, hf, hact, hid, updateStaticNodes_sessions] at hx
          exact Or.inl hx
    · cases hf : mapFind svc.m_sessions nodeID with
      | none =>
        simp only [onConnect, he, hf, hid, updateStaticNodes_sessions, ne_eq, not_true_eq_false,
          if_false, Bool.false_eq_true] at hx
        rcases mapKeys_mapInsert_subset _ _ _ _ hx with h | h
        · exact Or.inl h
        · exact Or.inr ⟨h, hid⟩
      | some it =>
        by_cases hact : env.actived it = true
        · simp [onConnect, he, hf, hact, updateStaticNodes_sessions] at hx
          exact Or.inl hx
        · simp [onConnect, he, hf, hact, hid, updateStaticNodes_sessions,
            mapKeys_mapAssign] at hx
          exact Or.inl hx
  · simp [onConnect, he] at hx
    exact Or.inl hx

theorem onDisconnect_id (svc : Service) (e : NetworkException) (p : P2PSession) :
    (onDisconnect svc e p).svc.id = svc.id := by
  unfold onDisconnect
  split
  · split <;> rfl
  · rfl

theorem onDisconnect_keys (svc : Service) (e : NetworkException) (p : P2PSession) (x : NodeID)
    (hx : x ∈ mapKeys (onDisconnect svc e p).svc.m_sessions) : x ∈ mapKeys svc.m_sessions := by
  unfold onDisconnect at hx
  split at hx
  · split at hx
    · exact mapKeys_mapErase_subset _ _ _ hx
    · exact hx
  · exact hx

theorem onMessage_svc (env : Env) (svc : Service) (e : NetworkException) (session : SessionFace)
    (message : Option P2PMessage) (p : P2PSession) (r : Outcome)
    (h : onMessage env svc e session message p = .ok r) :
    r.svc = svc ∨ r.svc = (onDisconnect svc e p).svc := by
  unfold onMessage at h
  by_cases he : e.errorCode = 0
  · cases message with
    | none => simp [he] at h
    | some m =>
      simp only [he, ne_eq, not_true_eq_false, if_false] at h
      split_ifs at h <;> (cases h; exact Or.inl rfl)
  · simp only [ne_eq, he, not_false_eq_true, if_true] at h
    split_ifs at h <;> cases h
    · exact Or.inl rfl
    · exact Or.inr rfl

theorem onMessage_id (env : Env) (svc : Service) (e : NetworkException) (session : SessionFace)
    (message : Option P2PMessage) (p : P2PSession) (r : Outcome)
    (h : onMessage env svc e session message p = .ok r) : r.svc.id = svc.id := by
  rcases onMessage_svc env svc e session message p r h with h1 | h1
  · rw [h1]
  · rw [h1]
    exact onDisconnect_id _ _ _

theorem onMessage_keys (env : Env) (svc : Service) (e : NetworkException) (session : SessionFace)
    (message : Option P2PMessage) (p : P2PSession) (r : Outcome)
    (h : onMessage env svc e session message p = .ok r) (x : NodeID)
    (hx : x ∈ mapKeys r.svc.m_sessions) : x ∈ mapKeys svc.m_sessions := by
  rcases onMessage_svc env svc e session message p r h with h1 | h1
  · rw [h1] at hx
    exact hx
  · rw [h1] at hx
    exact onDisconnect_keys _ _ _ _ hx

theorem step_id (a b : Service) (h : Step a b) : b.id = a.id := by
  cases h with
  | onConnect env _ e nodeID session => exact onConnect_id _ _ _ _ _
  | onDisconnect _ e p => exact onDisconnect_id _ _ _
  | onMessage env _ e session message p r hr => exact onMessage_id _ _ _ _ _ _ _ hr

theorem step_keys (a b : Service) (h : Step a b) (hinv : a.id ∉ mapKeys a.m_sessions) :
    b.id ∉ mapKeys b.m_sessions := by
  rw [step_id a b h]
  intro hx
  cases h with
  | onConnect env _ e nodeID session =>
    rcases onConnect_keys _ _ _ _ _ _ hx with h1 | h1
    · exact hinv h1
    · exact h1.2 h1.1.symm
  | onDisconnect _ e p => exact hinv (onDisconnect_keys _ _ _ _ hx)
  | onMessage env _ e session message p r hr => exact hinv (onMessage_keys _ _ _ _ _ _ _ hr _ hx)

theorem reachable_no_local (svc : Service) (h : Reachable svc) :
    svc.id ∉ mapKeys svc.m_sessions := by
  induction h with
  | init svc h0 => simp [h0, mapKeys]
  | step a b _ hs ih => exact step_keys a b hs ih

theorem onConnect_self (env : Env) (svc : Service) (e : NetworkException)
    (session : SessionFace) (he : e.errorCode = 0) :
    (onConnect env svc e svc.id session).events
        = [Event.disconnect session DisconnectReason.DuplicatePeer]
      ∧ (onConnect env svc e svc.id session).svc.m_sessions = svc.m_sessions := by
  cases hf : mapFind svc.m_sessions svc.id with
  | none => simp [onConnect, he, hf, updateStaticNodes_sessions]
  | some it =>
    by_cases hact : env.actived it = true
    · simp [onConnect, he, hf, hact, updateStaticNodes_sessions]
    · simp [onConnect, he, hf, hact, updateStaticNodes_sessions]

/-! ## C1 -/

/-- C1: an error-free `onConnect(e, nodeID, session)` on a registry that maps `nodeID` to an
active session `orig` makes exactly one outside call, `session->disconnect(DuplicatePeer)`;
no session is started; `m_sessions` is unchanged, it maps `nodeID` to `orig`, and `orig` is
the only entry stored for `nodeID`. -/
theorem C1_onConnect_duplicate_rejected (env : Env) (svc : Service) (e : NetworkException)
    (nodeID : NodeID) (session : SessionFace) (orig : P2PSession)
    (he : e.errorCode = 0)
    (hkeys : (mapKeys svc.m_sessions).Nodup)
    (hfind : mapFind svc.m_sessions nodeID = some orig)
    (hact : env.actived orig = true) :
    (onConnect env svc e nodeID session).events
        = [Event.disconnect session DisconnectReason.DuplicatePeer]
      ∧ (∀ p, Event.start p ∉ (onConnect env svc e nodeID session).events)
      ∧ (onConnect env svc e nodeID session).svc.m_sessions = svc.m_sessions
      ∧ mapFind (onConnect env svc e nodeID session).svc.m_sessions nodeID = some orig
      ∧ (onConnect env svc e nodeID session).svc.m_sessions.filter
          (fun it => decide (it.1 = nodeID)) = [(nodeID, orig)] := by
  have hev : (onConnect env svc e nodeID session).events
      = [Event.disconnect session DisconnectReason.DuplicatePeer] := by
    unfold onConnect
    simp [he, hfind, hact]
  have hs : (onConnect env svc e nodeID session).svc.m_sessions = svc.m_sessions := by
    unfold onConnect
    simp [he, hfind, hact, updateStaticNodes_sessions]
  refine ⟨hev, ?_, hs, ?_, ?_⟩
  · intro p hp
    rw [hev] at hp
    simp at hp
  · rw [hs]
    exact hfind
  · rw [hs]
    exact filter_key_of_mapFind _ _ _ hkeys hfind

/-! ## C2 -/

/-- C2: an error-free `onConnect` whose identity is the local identity `id()` makes exactly
one outside call, `session->disconnect(DuplicatePeer)`, and leaves `m_sessions` as it was;
and in every service reachable from one with an empty registry by `onConnect`,
`onDisconnect` and `onMessage` calls, `m_sessions` has no entry whose key is `id()`. -/
theorem C2_self_connect_rejected :
    (∀ (env : Env) (svc : Service) (e : NetworkException) (session : SessionFace),
      e.errorCode = 0 →
        (onConnect env svc e svc.id session).events
            = [Event.disconnect session DisconnectReason.DuplicatePeer]
          ∧ (onConnect env svc e svc.id session).svc.m_sessions = svc.m_sessions)
      ∧ (∀ svc : Service, Reachable svc →
          svc.id ∉ mapKeys svc.m_sessions ∧ mapFind svc.m_sessions svc.id = none) := by
  refine ⟨fun env svc e session he => onConnect_self env svc e session he, ?_⟩
  intro svc h
  have := reachable_no_local svc h
  exact ⟨this, (mapFind_eq_none_iff _ _).mpr this⟩

/-- C1 at a concrete input: identity 7 is connected and active, a second connection for 7
arrives on `sess2`. -/
theorem C1_onConnect_duplicate_rejected_witness :
    noError.errorCode = 0
      ∧ (mapKeys svcOne.m_sessions).Nodup
      ∧ mapFind svcOne.m_sessions 7 = some ⟨10, sess1, 7⟩
      ∧ env0.actived ⟨10, sess1, 7⟩ = true
      ∧ (onConnect env0 svcOne noError 7 sess2).events
          = [Event.disconnect sess2 DisconnectReason.DuplicatePeer]
      ∧ (∀ p, Event.start p ∉ (onConnect env0 svcOne noError 7 sess2).events)
      ∧ (onConnect env0 svcOne noError 7 sess2).svc.m_sessions = svcOne.m_sessions
      ∧ mapFind (onConnect env0 svcOne noError 7 sess2).svc.m_sessions 7 = some ⟨10, sess1, 7⟩
      ∧ (onConnect env0 svcOne noError 7 sess2).svc.m_sessions.filter
          (fun it => decide (it.1 = 7)) = [(7, ⟨10, sess1, 7⟩)] :=
  ⟨rfl, by decide, rfl, rfl,
    C1_onConnect_duplicate_rejected env0 svcOne noError 7 sess2 ⟨10, sess1, 7⟩ rfl (by decide)
      rfl rfl⟩

/-- C2 at a concrete input: a self-connect on `svc0` (local identity 5), and the service
reached from `svc0` by connecting identity 7. -/
theorem C2_self_connect_rejected_witness :
    noError.errorCode = 0
      ∧ ((onConnect env0 svc0 noError svc0.id sess1).events
            = [Event.disconnect sess1 DisconnectReason.DuplicatePeer]
          ∧ (onConnect env0 svc0 noError svc0.id sess1).svc.m_sessions = svc0.m_sessions)
      ∧ Reachable (onConnect env0 svc0 noError 7 sess1).svc
      ∧ ((onConnect env0 svc0 noError 7 sess1).svc.id
            ∉ mapKeys (onConnect env0 svc0 noError 7 sess1).svc.m_sessions
          ∧ mapFind (onConnect env0 svc0 noError 7 sess1).svc.m_sessions
              (onConnect env0 svc0 noError 7 sess1).svc.id = none) :=
  ⟨rfl, C2_self_connect_rejected.1 env0 svc0 noError sess1 rfl,
    Reachable.step svc0 _ (Reachable.init svc0 rfl) (Step.onConnect env0 svc0 noError 7 sess1),
    C2_self_connect_rejected.2 _
      (Reachable.step svc0 _ (Reachable.init svc0 rfl) (Step.onConnect env0 svc0 noError 7 sess1))⟩

/-! ## C3 -/

/-- C3, the claim as stated fails: identity 7 has no entry in the registry of `svc0`; the
send to 7 with the callback `user 1` returns after one outside call, the `enqueue` of a task
on the thread pool, and the callback is not called by the send. -/
theorem C3_sendAsync_not_synchronous :
    mapFind svc0.m_sessions 7 = none
      ∧ asyncSendMessageByNodeID env0 svc0 7 (some msg0) (Callback.user 1) opts0
          = .ok ⟨svc0, [Event.enqueue (Callback.user 1) disconnectError none none], some msg0⟩
      ∧ ¬ ∃ r, asyncSendMessageByNodeID env0 svc0 7 (some msg0) (Callback.user 1) opts0 = .ok r
          ∧ ∃ e s m, Event.call (Callback.user 1) e s m ∈ r.events := by
  refine ⟨rfl, rfl, ?_⟩
  rintro ⟨r, hr, e, s, m, hmem⟩
  have h : asyncSendMessageByNodeID env0 svc0 7 (some msg0) (Callback.user 1) opts0
      = .ok ⟨svc0, [Event.enqueue (Callback.user 1) disconnectError none none], some msg0⟩ := rfl
  rw [h] at hr
  cases hr
  simp at hmem

/-- C3, amended: a send to an identity that has no registry entry, or whose session is not
active, returns normally with the service and the message object unchanged; it makes no
transport write and calls no callback itself.  For a non-empty callback its only outside call
is one `enqueue` on the thread pool of a task that calls the callback with the `Disconnect`
error, a null session and a null message; for an empty callback it makes no outside call.
When the thread pool runs that task for a caller-supplied function, the function is called
once with those arguments. -/
theorem C3_sendAsync_inactive_enqueues (env : Env) (svc : Service) (nodeID : NodeID)
    (message : Option P2PMessage) (callback : Callback) (options : Options)
    (h : mapFind svc.m_sessions nodeID = none
      ∨ ∃ it, mapFind svc.m_sessions nodeID = some it ∧ env.actived it = false) :
    asyncSendMessageByNodeID env svc nodeID message callback options
        = .ok ⟨svc,
            if callback = Callback.empty then []
            else [Event.enqueue callback ⟨env.Disconnect, env.DisconnectMsg⟩ none none],
            message⟩
      ∧ ∀ (fn ri : Nat),
          runCallback env svc ri (Callback.user fn) ⟨env.Disconnect, env.DisconnectMsg⟩ none none
            = .ok ⟨svc,
                [Event.call (Callback.user fn) ⟨env.Disconnect, env.DisconnectMsg⟩ none none],
                none⟩ := by
  refine ⟨?_, fun fn ri => rfl⟩
  rcases h with h | ⟨it, h, hact⟩
  · by_cases hc : callback = Callback.empty <;> simp [asyncSendMessageByNodeID, h, hc]
  · by_cases hc : callback = Callback.empty <;> simp [asyncSendMessageByNodeID, h, hact, hc]

/-- C3 amended, at a concrete input: a send to the unknown identity 7 on `svc0`. -/
theorem C3_sendAsync_inactive_enqueues_witness :
    (mapFind svc0.m_sessions 7 = none
        ∨ ∃ it, mapFind svc0.m_sessions 7 = some it ∧ env0.actived it = false)
      ∧ asyncSendMessageByNodeID env0 svc0 7 (some msg0) (Callback.user 1) opts0
          = .ok ⟨svc0,
              if Callback.user 1 = Callback.empty then []
              else [Event.enqueue (Callback.user 1) ⟨env0.Disconnect, env0.DisconnectMsg⟩
                none none],
              some msg0⟩ :=
  ⟨Or.inl rfl,
    (C3_sendAsync_inactive_enqueues env0 svc0 7 (some msg0) (Callback.user 1) opts0
      (Or.inl rfl)).1⟩

/-! ## C4 -/

/-- C4, the code at a failing input: the candidates for the topic "t" are A = 1, B = 2 and
C = 3, every draw is 0, so A is tried first, then B, then C; the sessions of A and B are not
active, the session of C is.  The topic send returns after enqueueing the failure of A; the
task of A, run by the thread pool, calls `onResponse` with a null message and the retry to B
fails in the same way; the task of B calls `onResponse` with a null message again, and the
retry to C, whose session is active, dereferences that null message.  The callback `user 9`
of the caller is called in none of the three steps. -/
theorem C4_failover_retry_null_message :
    getPeersByTopic env0 svcABC "t" = [1, 2, 3]
      ∧ env0.actived ⟨10, ⟨3, "10.0.0.3", 30303⟩, 3⟩ = true
      ∧ ∃ r1 r2,
          asyncSendMessageByTopic env0 svcABC 0 "t" (some msg0) (Callback.user 9) opts0 = .ok r1
          ∧ r1.events = [Event.enqueue (Callback.topicStatus 0) disconnectError none none]
          ∧ runCallback env0 r1.svc 0 (Callback.topicStatus 0) disconnectError none none = .ok r2
          ∧ r2.events = [Event.enqueue (Callback.topicStatus 0) disconnectError none none]
          ∧ r2.svc.topicStatusObjs = [⟨2, [3], Callback.user 9, some msg0, opts0⟩]
          ∧ runCallback env0 r2.svc 0 (Callback.topicStatus 0) disconnectError none none
              = .error Fault.nullDeref :=
  ⟨rfl, rfl, _, _, rfl, rfl, rfl, rfl, rfl, rfl⟩

/-! ## C5 -/

/-- C5, the code at a failing input: the only candidate for the topic "t" is identity 1,
whose session is not active.  The topic send returns after enqueueing the failure of the one
attempt; when the thread pool runs that task, `onResponse` finds the pool empty and calls the
callback `user 9` of the caller with a default-constructed `NetworkException`, whose error
code is 0. -/
theorem C5_all_failed_reports_code_zero :
    getPeersByTopic env0 svcInactive "t" = [1]
      ∧ ∃ r1,
          asyncSendMessageByTopic env0 svcInactive 0 "t" (some msg0) (Callback.user 9) opts0
              = .ok r1
          ∧ r1.events = [Event.enqueue (Callback.topicStatus 0) disconnectError none none]
          ∧ runCallback env0 r1.svc 0 (Callback.topicStatus 0) disconnectError none none
              = .ok ⟨r1.svc, [Event.call (Callback.user 9) ⟨0, ""⟩ none none], none⟩ :=
  ⟨rfl, _, rfl, rfl, rfl⟩

/-! ## C6 -/

/-- C6: when `getPeersByTopic(topic)` is empty, `asyncSendMessageByTopic` returns with the
service and the message unchanged and makes no outside call: no callback is called or
enqueued and nothing is sent to a peer. -/
theorem C6_sendByTopic_no_subscribers (env : Env) (svc : Service) (ri : Nat) (topic : String)
    (message : Option P2PMessage) (callback : Callback) (options : Options)
    (h : getPeersByTopic env svc topic = []) :
    asyncSendMessageByTopic env svc ri topic message callback options
      = .ok ⟨svc, [], message⟩ := by
  simp [asyncSendMessageByTopic, h]

/-- C6 at a concrete input: a topic send on `svcOne` for the topic "u", to which no session
subscribes. -/
theorem C6_sendByTopic_no_subscribers_witness :
    getPeersByTopic env0 svcOne "u" = []
      ∧ asyncSendMessageByTopic env0 svcOne 0 "u" (some msg0) (Callback.user 9) opts0
          = .ok ⟨svcOne, [], some msg0⟩ :=
  ⟨by decide,
    C6_sendByTopic_no_subscribers env0 svcOne 0 "u" (some msg0) (Callback.user 9) opts0
      (by decide)⟩

/-! ## C7 -/

/-- C7, the claim as stated fails: in `svcEmptyIdentity`, reached from `svcStatic` by one
error-free `onConnect` that reports the empty identity, the static entry of `endpoint1` has
the identity `NodeID()` as its last-known identity and the registry holds an active session
under that identity; `endpoint1` is not the local endpoint and the identity is not the local
one; `heartBeat` issues a connect attempt for `endpoint1`. -/
theorem C7_heartBeat_connects_empty_identity :
    svcEmptyIdentity.m_staticNodes = [(endpoint1, emptyNodeID)]
      ∧ isConnected env0 svcEmptyIdentity emptyNodeID = true
      ∧ Event.asyncConnect endpoint1 ∈ (heartBeat env0 svcEmptyIdentity).events := by
  refine ⟨rfl, rfl, ?_⟩
  decide

/-- C7, amended: in every tick of `heartBeat`, no connect attempt is issued for a static
endpoint whose last-known identity is not the empty identity `NodeID()` and is active in the
registry, nor for an endpoint whose address and TCP port are the local address and listen
port, nor for an endpoint whose last-known identity is the local identity. -/
theorem C7_heartBeat_skips (env : Env) (svc : Service) (ep : NodeIPEndpoint) (n : NodeID)
    (hkeys : (mapKeys svc.m_staticNodes).Nodup)
    (hmem : (ep, n) ∈ svc.m_staticNodes)
    (h : (n ≠ emptyNodeID ∧ isConnected env svc n = true)
      ∨ (ep.address = env.tcpClientAddress ∧ ep.tcpPort = env.listenPort)
      ∨ n = svc.id) :
    Event.asyncConnect ep ∉ (heartBeat env svc).events := by
  intro hev
  unfold heartBeat at hev
  by_cases hrun : svc.m_run = true
  · simp only [hrun, Bool.not_true, Bool.false_eq_true, if_false, List.mem_append,
      List.mem_filterMap, List.mem_singleton] at hev
    rcases hev with ⟨it, hit, hentry⟩ | hev
    · obtain ⟨a, b⟩ := it
      unfold heartBeatEntry at hentry
      split_ifs at hentry with h1 h2 h3 h4
      simp only [Option.some.injEq, Event.asyncConnect.injEq] at hentry
      subst hentry
      have hb : b = n := by
        have e1 := mapFind_of_mem _ _ _ hkeys hit
        have e2 := mapFind_of_mem _ _ _ hkeys hmem
        rw [e1] at e2
        exact Option.some.inj e2
      subst hb
      rcases h with h | h | h
      · exact h3 h
      · exact h1 h
      · exact h2 h
    · cases hev
  · simp [hrun] at hev

/-- C7 amended, at a concrete input: in `svcOneStatic` the static entry of `endpoint1` has
identity 7, which is connected and active. -/
theorem C7_heartBeat_skips_witness :
    (mapKeys svcOneStatic.m_staticNodes).Nodup
      ∧ (endpoint1, 7) ∈ svcOneStatic.m_staticNodes
      ∧ ((7 ≠ emptyNodeID ∧ isConnected env0 svcOneStatic 7 = true)
        ∨ (endpoint1.address = env0.tcpClientAddress ∧ endpoint1.tcpPort = env0.listenPort)
        ∨ 7 = svcOneStatic.id)
      ∧ Event.asyncConnect endpoint1 ∉ (heartBeat env0 svcOneStatic).events :=
  ⟨by decide, by decide, Or.inl ⟨by decide, rfl⟩,
    C7_heartBeat_skips env0 svcOneStatic endpoint1 7 (by decide) (by decide)
      (Or.inl ⟨by decide, rfl⟩)⟩

/-! ## C8 -/

/-- C8, the code at a failing input: in `svcOneStatic` the registry maps identity 7 to the
session object 10 and the static entry of `endpoint1` has 7 as its last-known identity.
`onDisconnect` for that session object removes the registry entry and leaves the static node
table as it was: the entry of `endpoint1` still has identity 7.  The copy of the entry that
the loop wrote is the one with the empty identity. -/
theorem C8_onDisconnect_keeps_static_entry :
    (onDisconnect svcOneStatic connectError ⟨10, sess1, 7⟩).svc.m_sessions = []
      ∧ (onDisconnect svcOneStatic connectError ⟨10, sess1, 7⟩).svc.m_staticNodes
          = [(endpoint1, 7)]
      ∧ onDisconnectLoop svcOneStatic.m_staticNodes 7 = [(endpoint1, emptyNodeID)] :=
  ⟨rfl, rfl, rfl⟩

/-! ## C9 -/

/-- C9, the claim as stated fails: `endpoint1`, the remote endpoint of `sess1`, is a key of
the static node table of `svcStatic`, with the empty identity; after an `onConnect` that
reports an error together with identity 7 the table is the same, the entry of `endpoint1`
still has the empty identity and not 7. -/
theorem C9_onConnect_error_keeps_static_entry :
    connectError.errorCode ≠ 0
      ∧ endpoint1 = ⟨sess1.remoteAddress, sess1.remotePort, sess1.remotePort⟩
      ∧ endpoint1 ∈ mapKeys svcStatic.m_staticNodes
      ∧ (onConnect env0 svcStatic connectError 7 sess1).svc.m_staticNodes
          = [(endpoint1, emptyNodeID)]
      ∧ mapFind (onConnect env0 svcStatic connectError 7 sess1).svc.m_staticNodes endpoint1
          ≠ some 7 := by
  refine ⟨by decide, rfl, by decide, rfl, by decide⟩

/-- C9, amended: for every error-free call `onConnect(e, nodeID, session)`, if the remote
endpoint of the session (address, port, port) is a key of the static node table, then after
the call the table maps that endpoint to `nodeID`. -/
theorem C9_onConnect_updates_static_entry (env : Env) (svc : Service) (e : NetworkException)
    (nodeID : NodeID) (session : SessionFace)
    (he : e.errorCode = 0)
    (hkey : (⟨session.remoteAddress, session.remotePort, session.remotePort⟩ : NodeIPEndpoint)
      ∈ mapKeys svc.m_staticNodes) :
    mapFind (onConnect env svc e nodeID session).svc.m_staticNodes
        ⟨session.remoteAddress, session.remotePort, session.remotePort⟩
      = some nodeID := by
  have hdup := updateStaticNodes_find svc session nodeID hkey
  have hnew := updateStaticNodes_find { svc with allocated := svc.allocated + 1 } session nodeID hkey
  by_cases hid : nodeID = svc.id
  · have hself := updateStaticNodes_find svc session svc.id hkey
    cases hf : mapFind svc.m_sessions nodeID with
    | none => simpa [onConnect, he, hf, hid] using hself
    | some it =>
      by_cases hact : env.actived it = true
      · simpa [onConnect, he, hf, hact] using hdup
      · simpa [onConnect, he, hf, hact, hid] using hself
  · cases hf : mapFind svc.m_sessions nodeID with
    | none => simpa [onConnect, he, hf, hid] using hnew
    | some it =>
      by_cases hact : env.actived it = true
      · simpa [onConnect, he, hf, hact] using hdup
      · simpa [onConnect, he, hf, hact, hid] using hnew

/-- C9 amended, at a concrete input: an error-free connection of identity 7 from `endpoint1`
on `svcStatic`. -/
theorem C9_onConnect_updates_static_entry_witness :
    noError.errorCode = 0
      ∧ (⟨sess1.remoteAddress, sess1.remotePort, sess1.remotePort⟩ : NodeIPEndpoint)
          ∈ mapKeys svcStatic.m_staticNodes
      ∧ mapFind (onConnect env0 svcStatic noError 7 sess1).svc.m_staticNodes
          ⟨sess1.remoteAddress, sess1.remotePort, sess1.remotePort⟩ = some 7 :=
  ⟨rfl, by decide, C9_onConnect_updates_static_entry env0 svcStatic noError 7 sess1 rfl (by decide)⟩

/-! ## C10 -/

/-- C10, the claim as stated fails: the registry of `svcInactive` maps identity 1 to a
session that is not active and subscribes to the topic "t"; `getPeersByTopic("t")` returns
identity 1. -/
theorem C10_getPeersByTopic_lists_inactive :
    mapFind svcInactive.m_sessions 1 = some ⟨1, sess1, 1⟩
      ∧ env0.actived ⟨1, sess1, 1⟩ = false
      ∧ 1 ∈ getPeersByTopic env0 svcInactive "t"
      ∧ ¬ ∃ p, mapFind svcInactive.m_sessions 1 = some p ∧ env0.actived p = true
          ∧ "t" ∈ env0.topics p := by
  refine ⟨rfl, rfl, by decide, ?_⟩
  rintro ⟨p, hp, hact, _⟩
  have h : mapFind svcInactive.m_sessions 1 = some ⟨1, sess1, 1⟩ := rfl
  rw [h] at hp
  cases hp
  exact absurd hact (by decide)

/-- C10, amended: for a registry (keys pairwise distinct, the topics of each session a set),
an identity occurs in `getPeersByTopic(topic)` if and only if the registry maps it to a
session, active or not, whose topic set contains `topic`, and it occurs at most once. -/
theorem C10_getPeersByTopic_spec (env : Env) (svc : Service) (topic : String) (n : NodeID)
    (hkeys : (mapKeys svc.m_sessions).Nodup)
    (htopics : ∀ it ∈ svc.m_sessions, (env.topics it.2).Nodup) :
    (n ∈ getPeersByTopic env svc topic
        ↔ ∃ p, mapFind svc.m_sessions n = some p ∧ topic ∈ env.topics p)
      ∧ (getPeersByTopic env svc topic).count n ≤ 1 := by
  refine ⟨?_, count_getPeersByTopicOuter_le env topic svc.m_sessions hkeys htopics n⟩
  unfold getPeersByTopic
  rw [mem_getPeersByTopicOuter]
  constructor
  · rintro ⟨p, hp, ht⟩
    exact ⟨p, mapFind_of_mem _ _ _ hkeys hp, ht⟩
  · rintro ⟨p, hp, ht⟩
    exact ⟨p, mapFind_mem _ _ _ hp, ht⟩

/-- C10 amended, at a concrete input: the three sessions of `svcABC`, identity 2. -/
theorem C10_getPeersByTopic_spec_witness :
    (mapKeys svcABC.m_sessions).Nodup
      ∧ (∀ it ∈ svcABC.m_sessions, (env0.topics it.2).Nodup)
      ∧ (2 ∈ getPeersByTopic env0 svcABC "t"
          ↔ ∃ p, mapFind svcABC.m_sessions 2 = some p ∧ "t" ∈ env0.topics p)
      ∧ (getPeersByTopic env0 svcABC "t").count 2 ≤ 1 :=
  ⟨by decide, by decide,
    C10_getPeersByTopic_spec env0 svcABC "t" 2 (by decide) (by decide)⟩

/-! ## Lemmas on the handler tables -/

theorem mapFind_append_singleton {K V : Type} [DecidableEq K] (m : List (K × V)) (k : K) (v : V)
    (x : K) :
    mapFind (m ++ [(k, v)]) x
      = match mapFind m x with
        | some w => some w
        | none => if k = x then some v else none := by
  induction m with
  | nil => simp [mapFind]
  | cons hd tl ih =>
    obtain ⟨k1, v1⟩ := hd
    by_cases h : k1 = x
    · simp [mapFind, h]
    · simp only [List.cons_append, mapFind, h, if_false]
      exact ih

theorem mapFind_mapInsert_self {K V : Type} [DecidableEq K] (m : List (K × V)) (k : K) (v : V)
    (h : mapFind m k = none) : mapFind (mapInsert m k v) k = some v := by
  unfold mapInsert
  simp [h, mapFind_append_singleton]

theorem mapFind_mapInsert_ne {K V : Type} [DecidableEq K] (m : List (K × V)) (k : K) (v : V)
    (x : K) (hx : x ≠ k) : mapFind (mapInsert m k v) x = mapFind m x := by
  unfold mapInsert
  cases hf : mapFind m k with
  | some w => rfl
  | none =>
    simp only [mapFind_append_singleton]
    cases mapFind m x with
    | some w => rfl
    | none => simp [Ne.symm hx]

theorem mapFind_mapAssign_ne {K V : Type} [DecidableEq K] (m : List (K × V)) (k : K) (v : V)
    (x : K) (hx : x ≠ k) : mapFind (mapAssign m k v) x = mapFind m x := by
  induction m with
  | nil => rfl
  | cons hd tl ih =>
    obtain ⟨k1, v1⟩ := hd
    unfold mapAssign
    by_cases h : k1 = k
    · have h2 : ¬ k1 = x := fun h3 => hx (h3.symm.trans h)
      simp [h, mapFind, h ▸ h2]
    · simp only [h, if_false, mapFind]
      rw [ih]

theorem mapAssign_same {K V : Type} [DecidableEq K] (m : List (K × V)) (k : K) (v : V)
    (h : mapFind m k = some v) : mapAssign m k v = m := by
  induction m with
  | nil => rfl
  | cons hd tl ih =>
    obtain ⟨k1, v1⟩ := hd
    unfold mapFind at h
    unfold mapAssign
    by_cases hk : k1 = k
    · simp only [hk, if_true, Option.some.injEq] at h
      simp [hk, h]
    · simp only [hk, if_false] at h ⊢
      rw [ih h]

theorem upsert_find_self {K V : Type} [DecidableEq K] (m : List (K × V)) (k : K) (v : V) :
    mapFind (mapUpsert m k v) k = some v := by
  unfold mapUpsert
  cases hf : mapFind m k with
  | none => exact mapFind_mapInsert_self m k v hf
  | some w => exact mapFind_mapAssign_self m k v w hf

theorem upsert_find_ne {K V : Type} [DecidableEq K] (m : List (K × V)) (k : K) (v : V)
    (x : K) (hx : x ≠ k) :
    mapFind (mapUpsert m k v) x = mapFind m x := by
  unfold mapUpsert
  cases hf : mapFind m k with
  | none => exact mapFind_mapInsert_ne m k v x hx
  | some w => exact mapFind_mapAssign_ne m k v x hx

theorem registerHandlerByProtoclID_table (svc : Service) (k : Nat) (h : Callback) :
    (registerHandlerByProtoclID svc k h).m_protocolID2Handler
      = mapUpsert svc.m_protocolID2Handler k h := by
  unfold registerHandlerByProtoclID mapUpsert
  cases mapFind svc.m_protocolID2Handler k <;> rfl

theorem registerHandlerByTopic_table (svc : Service) (t : String) (h : Callback) :
    (registerHandlerByTopic svc t h).m_topic2Handler
      = mapUpsert svc.m_topic2Handler t h := by
  unfold registerHandlerByTopic mapUpsert
  cases mapFind svc.m_topic2Handler t <;> rfl

theorem registerHandlerByProtoclID_of_find (svc : Service) (k : Nat) (h : Callback)
    (hf : mapFind svc.m_protocolID2Handler k = some h) :
    registerHandlerByProtoclID svc k h = svc := by
  unfold registerHandlerByProtoclID
  rw [hf]
  dsimp only
  rw [mapAssign_same _ _ _ hf]

theorem registerHandlerByTopic_of_find (svc : Service) (t : String) (h : Callback)
    (hf : mapFind svc.m_topic2Handler t = some h) :
    registerHandlerByTopic svc t h = svc := by
  unfold registerHandlerByTopic
  rw [hf]
  dsimp only
  rw [mapAssign_same _ _ _ hf]

theorem registerHandlerByProtoclID_twice (svc : Service) (k : Nat) (h : Callback) :
    registerHandlerByProtoclID (registerHandlerByProtoclID svc k h) k h
      = registerHandlerByProtoclID svc k h := by
  apply registerHandlerByProtoclID_of_find
  rw [registerHandlerByProtoclID_table]
  exact upsert_find_self _ _ _

theorem registerHandlerByTopic_twice (svc : Service) (t : String) (h : Callback) :
    registerHandlerByTopic (registerHandlerByTopic svc t h) t h
      = registerHandlerByTopic svc t h := by
  apply registerHandlerByTopic_of_find
  rw [registerHandlerByTopic_table]
  exact upsert_find_self _ _ _

/-! ## C11 -/

/-- C11: `registerHandlerByProtoclID` and `registerHandlerByTopic` are upserts.  After
registering `(k, h)` the table maps `k` to `h`, whatever it held for `k` before; every other
key maps to what it mapped to before; and registering the same `(k, h)` a second time gives
the same service, table included, as registering it once. -/
theorem C11_registerHandler_upsert (svc : Service) (h : Callback) :
    (∀ k : Nat,
        mapFind (registerHandlerByProtoclID svc k h).m_protocolID2Handler k = some h
        ∧ (∀ x : Nat, x ≠ k →
            mapFind (registerHandlerByProtoclID svc k h).m_protocolID2Handler x
              = mapFind svc.m_protocolID2Handler x)
        ∧ registerHandlerByProtoclID (registerHandlerByProtoclID svc k h) k h
            = registerHandlerByProtoclID svc k h)
      ∧ (∀ t : String,
        mapFind (registerHandlerByTopic svc t h).m_topic2Handler t = some h
        ∧ (∀ x : String, x ≠ t →
            mapFind (registerHandlerByTopic svc t h).m_topic2Handler x
              = mapFind svc.m_topic2Handler x)
        ∧ registerHandlerByTopic (registerHandlerByTopic svc t h) t h
            = registerHandlerByTopic svc t h) := by
  constructor
  · intro k
    refine ⟨?_, ?_, registerHandlerByProtoclID_twice svc k h⟩
    · rw [registerHandlerByProtoclID_table]
      exact upsert_find_self _ _ _
    · intro x hx
      rw [registerHandlerByProtoclID_table]
      exact upsert_find_ne _ _ _ _ hx
  · intro t
    refine ⟨?_, ?_, registerHandlerByTopic_twice svc t h⟩
    · rw [registerHandlerByTopic_table]
      exact upsert_find_self _ _ _
    · intro x hx
      rw [registerHandlerByTopic_table]
      exact upsert_find_ne _ _ _ _ hx

/-- C11 at a concrete input: on `svcHandlers`, protocol 1 (registered before) gets the
function 8 and protocol 2 keeps its entry; the topic "t" (not registered before) gets the
function 8 and the topic "u" stays unregistered. -/
theorem C11_registerHandler_upsert_witness :
    (2 : Nat) ≠ 1 ∧ "u" ≠ "t"
      ∧ mapFind (registerHandlerByProtoclID svcHandlers 1 (Callback.user 8)).m_protocolID2Handler 1
          = some (Callback.user 8)
      ∧ mapFind (registerHandlerByProtoclID svcHandlers 1 (Callback.user 8)).m_protocolID2Handler 2
          = mapFind svcHandlers.m_protocolID2Handler 2
      ∧ mapFind (registerHandlerByTopic svcHandlers "t" (Callback.user 8)).m_topic2Handler "t"
          = some (Callback.user 8)
      ∧ mapFind (registerHandlerByTopic svcHandlers "t" (Callback.user 8)).m_topic2Handler "u"
          = mapFind svcHandlers.m_topic2Handler "u" :=
  ⟨by decide, by decide,
    ((C11_registerHandler_upsert svcHandlers (Callback.user 8)).1 1).1,
    ((C11_registerHandler_upsert svcHandlers (Callback.user 8)).1 1).2.1 2 (by decide),
    ((C11_registerHandler_upsert svcHandlers (Callback.user 8)).2 "t").1,
    ((C11_registerHandler_upsert svcHandlers (Callback.user 8)).2 "t").2.1 "u" (by decide)⟩

/-! ## C12 -/

theorem mapFind_mapErase_self {K V : Type} [DecidableEq K] (m : List (K × V)) (k : K)
    (hn : (mapKeys m).Nodup) : mapFind (mapErase m k) k = none := by
  induction m with
  | nil => rfl
  | cons hd tl ih =>
    obtain ⟨k1, v1⟩ := hd
    simp only [mapKeys, List.map_cons, List.nodup_cons] at hn
    unfold mapErase
    by_cases hk : k1 = k
    · simp only [hk, if_true]
      rw [mapFind_eq_none_iff]
      exact hk ▸ hn.1
    · simp only [hk, if_false, mapFind]
      exact ih hn.2

theorem onDisconnect_events (svc : Service) (e : NetworkException) (p : P2PSession) :
    (onDisconnect svc e p).events = [] := by
  unfold onDisconnect
  split
  · split <;> rfl
  · rfl

theorem onDisconnect_not_mapped (svc : Service) (e : NetworkException) (p : P2PSession)
    (hkeys : (mapKeys svc.m_sessions).Nodup) (q : P2PSession)
    (hq : mapFind (onDisconnect svc e p).svc.m_sessions p.nodeID = some q) : q.ptr ≠ p.ptr := by
  unfold onDisconnect at hq
  cases hf : mapFind svc.m_sessions p.nodeID with
  | none =>
    simp only [hf] at hq
    cases hq
  | some it =>
    by_cases hp : it.ptr = p.ptr
    · simp only [hf, hp, if_true] at hq
      rw [mapFind_mapErase_self _ _ hkeys] at hq
      cases hq
    · simp only [hf, hp, if_false] at hq
      cases hq
      exact hp

/-- C12: for an `onMessage` call whose error code is not 0.  If the code is not
`DuplicateSession`, the call returns after exactly one outside call,
`p2pSession->stop(UserReason)`, with the service that `onDisconnect` leaves, and in that
service the registry does not map the identity of the session to that session object.  If the
code is `DuplicateSession`, the call returns with the service unchanged and no outside call at
all: the session is not stopped.  In both cases nothing is enqueued or called, so no protocol
handler runs. -/
theorem C12_onMessage_transport_error (env : Env) (svc : Service) (e : NetworkException)
    (session : SessionFace) (message : Option P2PMessage) (p : P2PSession)
    (he : e.errorCode ≠ 0) (hkeys : (mapKeys svc.m_sessions).Nodup) :
    (e.errorCode ≠ env.DuplicateSession →
        onMessage env svc e session message p
            = .ok ⟨(onDisconnect svc e p).svc, [Event.stop p DisconnectReason.UserReason]⟩
          ∧ ∀ q, mapFind (onDisconnect svc e p).svc.m_sessions p.nodeID = some q
              → q.ptr ≠ p.ptr)
      ∧ (e.errorCode = env.DuplicateSession →
        onMessage env svc e session message p = .ok ⟨svc, []⟩) := by
  constructor
  · intro hd
    refine ⟨?_, fun q hq => onDisconnect_not_mapped svc e p hkeys q hq⟩
    simp [onMessage, he, hd, onDisconnect_events]
  · intro hd
    unfold onMessage
    rw [if_pos he, if_neg (not_not.mpr hd)]

/-- C12 at a concrete input: on `svcOne`, whose registry maps identity 7 to the session object
10, a message arrival for that session with the error code 5, and one with the error code 6,
which is `DuplicateSession` under `env0`. -/
theorem C12_onMessage_transport_error_witness :
    connectError.errorCode ≠ 0 ∧ duplicateSessionError.errorCode ≠ 0
      ∧ (mapKeys svcOne.m_sessions).Nodup
      ∧ connectError.errorCode ≠ env0.DuplicateSession
      ∧ duplicateSessionError.errorCode = env0.DuplicateSession
      ∧ onMessage env0 svcOne connectError sess1 none ⟨10, sess1, 7⟩
          = .ok ⟨(onDisconnect svcOne connectError ⟨10, sess1, 7⟩).svc,
              [Event.stop ⟨10, sess1, 7⟩ DisconnectReason.UserReason]⟩
      ∧ (onDisconnect svcOne connectError ⟨10, sess1, 7⟩).svc.m_sessions = []
      ∧ onMessage env0 svcOne duplicateSessionError sess1 none ⟨10, sess1, 7⟩
          = .ok ⟨svcOne, []⟩ :=
  ⟨by decide, by decide, by decide, by decide, rfl,
    ((C12_onMessage_transport_error env0 svcOne connectError sess1 none ⟨10, sess1, 7⟩
      (by decide) (by decide)).1 (by decide)).1,
    rfl,
    (C12_onMessage_transport_error env0 svcOne duplicateSessionError sess1 none ⟨10, sess1, 7⟩
      (by decide) (by decide)).2 rfl⟩

/-! ## C13 -/

/-- C13, the claim as stated fails: the handler table of `svcHandlers` maps protocol 2 to a
handler, the empty `std::function`; an error-free request message for protocol 2 returns with
no outside call: that handler is not scheduled. -/
theorem C13_onMessage_empty_handler_not_scheduled :
    noError.errorCode = 0
      ∧ msgProto2.isRequestPacket = true
      ∧ mapFind svcHandlers.m_protocolID2Handler msgProto2.protocolID = some Callback.empty
      ∧ onMessage env0 svcHandlers noError sess1 (some msgProto2) ⟨10, sess1, 7⟩
          = .ok ⟨svcHandlers, []⟩ :=
  ⟨rfl, rfl, rfl, rfl⟩

/-- C13, amended: for an error-free request message `m` with protocol id `m.protocolID`.  If
the handler table maps the id to a non-empty handler `h`, the call returns after exactly one
outside call, the `enqueue` on the thread pool of a task that calls `h` with the error, that
session and that message.  If the id is not registered, or is registered with an empty
function, the call returns with no outside call: nothing is scheduled and nothing is sent
back.  In both cases the service, the session registry included, is unchanged. -/
theorem C13_onMessage_request_dispatch (env : Env) (svc : Service) (e : NetworkException)
    (session : SessionFace) (m : P2PMessage) (p : P2PSession)
    (he : e.errorCode = 0) (hreq : m.isRequestPacket = true) :
    (∀ h, mapFind svc.m_protocolID2Handler m.protocolID = some h → h ≠ Callback.empty →
        onMessage env svc e session (some m) p
          = .ok ⟨svc, [Event.enqueue h e (some p) (some m)]⟩)
      ∧ (mapFind svc.m_protocolID2Handler m.protocolID = none
          ∨ mapFind svc.m_protocolID2Handler m.protocolID = some Callback.empty →
        onMessage env svc e session (some m) p = .ok ⟨svc, []⟩) := by
  constructor
  · intro h hf hne
    simp [onMessage, he, hreq, hf, hne]
  · rintro (hf | hf) <;> simp [onMessage, he, hreq, hf]

/-- C13 amended, at a concrete input: on `svcHandlers`, a request for protocol 1, registered
with the function 4, and a request for protocol 9, not registered. -/
theorem C13_onMessage_request_dispatch_witness :
    noError.errorCode = 0 ∧ msg0.isRequestPacket = true ∧ msgProto9.isRequestPacket = true
      ∧ mapFind svcHandlers.m_protocolID2Handler msg0.protocolID = some (Callback.user 4)
      ∧ Callback.user 4 ≠ Callback.empty
      ∧ mapFind svcHandlers.m_protocolID2Handler msgProto9.protocolID = none
      ∧ onMessage env0 svcHandlers noError sess1 (some msg0) ⟨10, sess1, 7⟩
          = .ok ⟨svcHandlers,
              [Event.enqueue (Callback.user 4) noError (some ⟨10, sess1, 7⟩) (some msg0)]⟩
      ∧ onMessage env0 svcHandlers noError sess1 (some msgProto9) ⟨10, sess1, 7⟩
          = .ok ⟨svcHandlers, []⟩ :=
  ⟨rfl, rfl, rfl, rfl, by decide, rfl,
    (C13_onMessage_request_dispatch env0 svcHandlers noError sess1 msg0 ⟨10, sess1, 7⟩ rfl rfl).1
      (Callback.user 4) rfl (by decide),
    (C13_onMessage_request_dispatch env0 svcHandlers noError sess1 msgProto9 ⟨10, sess1, 7⟩
      rfl rfl).2 (Or.inl rfl)⟩

/-! ## Lemmas on asyncSendMessageByNodeID -/

theorem asyncSendMessageByNodeID_active (env : Env) (svc : Service) (nodeID : NodeID)
    (m : P2PMessage) (callback : Callback) (options : Options) (p : P2PSession)
    (hf : mapFind svc.m_sessions nodeID = some p) (ha : env.actived p = true) :
    asyncSendMessageByNodeID env svc nodeID (some m) callback options
      = if m.seq = 0 then
          .ok ⟨{ svc with seqCalls := svc.seqCalls + 1 },
            [Event.asyncSendMessage p
              { m with length := (env.HEADER_LENGTH + m.buffer.length) % 2 ^ 32,
                       seq := env.newSeq svc.seqCalls } options callback],
            some { m with length := (env.HEADER_LENGTH + m.buffer.length) % 2 ^ 32,
                          seq := env.newSeq svc.seqCalls }⟩
        else
          .ok ⟨svc,
            [Event.asyncSendMessage p
              { m with length := (env.HEADER_LENGTH + m.buffer.length) % 2 ^ 32 } options
              callback],
            some { m with length := (env.HEADER_LENGTH + m.buffer.length) % 2 ^ 32 }⟩ := by
  unfold asyncSendMessageByNodeID
  simp only [hf, ha, if_true]

theorem hugePayload_length : hugePayload.length = 2 ^ 32 - 12 := by
  unfold hugePayload
  exact List.length_replicate _ _

/-! ## C14 -/

/-- C14, the claim as stated fails: identity 7 has an active session in `svcOne`; the message
`msgHuge` has a payload of 2^32 - 12 bytes, so with the header length 12 of `env0` the sum
`HEADER_LENGTH + buffer.size()` is 2^32; the message handed to the transport carries the
length 0, the sum reduced to the 32 bits of the length field. -/
theorem C14_length_wraps_at_32_bits :
    mapFind svcOne.m_sessions 7 = some ⟨10, sess1, 7⟩
      ∧ env0.actived ⟨10, sess1, 7⟩ = true
      ∧ env0.HEADER_LENGTH + msgHuge.buffer.length = 2 ^ 32
      ∧ asyncSendMessageByNodeID env0 svcOne 7 (some msgHuge) Callback.empty opts0
          = .ok ⟨svcOne,
              [Event.asyncSendMessage ⟨10, sess1, 7⟩ { msgHuge with length := 0 } opts0
                Callback.empty],
              some { msgHuge with length := 0 }⟩ := by
  have hbuf : msgHuge.buffer = hugePayload := rfl
  have hhead : env0.HEADER_LENGTH = 12 := rfl
  have hlen : env0.HEADER_LENGTH + msgHuge.buffer.length = 2 ^ 32 := by
    rw [hbuf, hhead, hugePayload_length]
    norm_num
  have hmod : (env0.HEADER_LENGTH + msgHuge.buffer.length) % 2 ^ 32 = 0 := by
    rw [hlen]
    exact Nat.mod_self _
  have hseq : ¬ msgHuge.seq = 0 := by
    show ¬ (5 : Nat) = 0
    decide
  refine ⟨rfl, rfl, hlen, ?_⟩
  rw [asyncSendMessageByNodeID_active env0 svcOne 7 msgHuge Callback.empty opts0 ⟨10, sess1, 7⟩
    rfl rfl, if_neg hseq, hmod]

/-- C14, amended: for every message sent by `asyncSendMessageByNodeID` to an identity with an
active session, exactly one message is handed to the transport, with the payload of the
message given; its length is `HEADER_LENGTH` plus the size of the payload reduced modulo
2^32, whatever length the message carried on entry, and so equals `HEADER_LENGTH` plus the
size of its payload whenever that sum is below 2^32. -/
theorem C14_sent_length (env : Env) (svc : Service) (nodeID : NodeID) (m : P2PMessage)
    (callback : Callback) (options : Options) (p : P2PSession)
    (hf : mapFind svc.m_sessions nodeID = some p) (ha : env.actived p = true) :
    ∃ r sent,
      asyncSendMessageByNodeID env svc nodeID (some m) callback options = .ok r
        ∧ r.events = [Event.asyncSendMessage p sent options callback]
        ∧ r.message = some sent
        ∧ sent.buffer = m.buffer
        ∧ sent.length = (env.HEADER_LENGTH + sent.buffer.length) % 2 ^ 32
        ∧ (env.HEADER_LENGTH + sent.buffer.length < 2 ^ 32 →
            sent.length = env.HEADER_LENGTH + sent.buffer.length) := by
  rw [asyncSendMessageByNodeID_active env svc nodeID m callback options p hf ha]
  by_cases hs : m.seq = 0
  · rw [if_pos hs]
    exact ⟨_, _, rfl, rfl, rfl, rfl, rfl, fun h => Nat.mod_eq_of_lt h⟩
  · rw [if_neg hs]
    exact ⟨_, _, rfl, rfl, rfl, rfl, rfl, fun h => Nat.mod_eq_of_lt h⟩

/-- C14 amended, at a concrete input: `msg0`, payload of 3 bytes and length 0 on entry, sent
to identity 7 on `svcOne`, leaves with the length 15. -/
theorem C14_sent_length_witness :
    mapFind svcOne.m_sessions 7 = some ⟨10, sess1, 7⟩
      ∧ env0.actived ⟨10, sess1, 7⟩ = true
      ∧ ∃ r sent,
          asyncSendMessageByNodeID env0 svcOne 7 (some msg0) (Callback.user 1) opts0 = .ok r
            ∧ r.events = [Event.asyncSendMessage ⟨10, sess1, 7⟩ sent opts0 (Callback.user 1)]
            ∧ r.message = some sent
            ∧ sent.buffer = msg0.buffer
            ∧ sent.length = (env0.HEADER_LENGTH + sent.buffer.length) % 2 ^ 32
            ∧ (env0.HEADER_LENGTH + sent.buffer.length < 2 ^ 32 →
                sent.length = env0.HEADER_LENGTH + sent.buffer.length) :=
  ⟨rfl, rfl,
    C14_sent_length env0 svcOne 7 msg0 (Callback.user 1) opts0 ⟨10, sess1, 7⟩ rfl rfl⟩

/-! ## C15 -/

/-- C15: for every message sent by `asyncSendMessageByNodeID` to an identity with an active
session, exactly one message is handed to the transport.  If the sequence of the message is 0
on entry, the message handed over carries the value returned by the next call of `newSeq()`,
and that call is the only one made.  If it is not 0, the message handed over carries the
sequence it had on entry and the service, the count of `newSeq()` calls included, is
unchanged. -/
theorem C15_sent_sequence (env : Env) (svc : Service) (nodeID : NodeID) (m : P2PMessage)
    (callback : Callback) (options : Options) (p : P2PSession)
    (hf : mapFind svc.m_sessions nodeID = some p) (ha : env.actived p = true) :
    ∃ r sent,
      asyncSendMessageByNodeID env svc nodeID (some m) callback options = .ok r
        ∧ r.events = [Event.asyncSendMessage p sent options callback]
        ∧ (m.seq = 0 →
            sent.seq = env.newSeq svc.seqCalls ∧ r.svc.seqCalls = svc.seqCalls + 1)
        ∧ (m.seq ≠ 0 → sent.seq = m.seq ∧ r.svc = svc) := by
  rw [asyncSendMessageByNodeID_active env svc nodeID m callback options p hf ha]
  by_cases hs : m.seq = 0
  · rw [if_pos hs]
    exact ⟨_, _, rfl, rfl, fun _ => ⟨rfl, rfl⟩, fun h => absurd hs h⟩
  · rw [if_neg hs]
    exact ⟨_, _, rfl, rfl, fun h => absurd h hs, fun _ => ⟨rfl, rfl⟩⟩

/-- C15 at a concrete input: on `svcOne`, `msg0` (sequence 0) and `msgSeq42` (sequence 42)
sent to identity 7. -/
theorem C15_sent_sequence_witness :
    mapFind svcOne.m_sessions 7 = some ⟨10, sess1, 7⟩
      ∧ env0.actived ⟨10, sess1, 7⟩ = true
      ∧ msg0.seq = 0 ∧ msgSeq42.seq ≠ 0
      ∧ (∃ r sent,
          asyncSendMessageByNodeID env0 svcOne 7 (some msg0) (Callback.user 1) opts0 = .ok r
            ∧ r.events = [Event.asyncSendMessage ⟨10, sess1, 7⟩ sent opts0 (Callback.user 1)]
            ∧ (msg0.seq = 0 →
                sent.seq = env0.newSeq svcOne.seqCalls ∧ r.svc.seqCalls = svcOne.seqCalls + 1)
            ∧ (msg0.seq ≠ 0 → sent.seq = msg0.seq ∧ r.svc = svcOne))
      ∧ (∃ r sent,
          asyncSendMessageByNodeID env0 svcOne 7 (some msgSeq42) (Callback.user 1) opts0 = .ok r
            ∧ r.events = [Event.asyncSendMessage ⟨10, sess1, 7⟩ sent opts0 (Callback.user 1)]
            ∧ (msgSeq42.seq = 0 →
                sent.seq = env0.newSeq svcOne.seqCalls ∧ r.svc.seqCalls = svcOne.seqCalls + 1)
            ∧ (msgSeq42.seq ≠ 0 → sent.seq = msgSeq42.seq ∧ r.svc = svcOne)) :=
  ⟨rfl, rfl, rfl, by decide,
    C15_sent_sequence env0 svcOne 7 msg0 (Callback.user 1) opts0 ⟨10, sess1, 7⟩ rfl rfl,
    C15_sent_sequence env0 svcOne 7 msgSeq42 (Callback.user 1) opts0 ⟨10, sess1, 7⟩ rfl rfl⟩

/-! ## C16 -/

/-- C16, the code at a failing input: identity 7 has no entry in the registry of `svc0`.  The
synchronous send to 7 makes one outside call, the `enqueue` of the task that delivers the
`Disconnect` error (code 3 under `env0`) to `SessionCallback::onResponse`; the `try` block
then throws that `NetworkException`, the `catch (std::exception& e)` handler of the same
function catches it and throws `e` again by `BOOST_THROW_EXCEPTION(e)`, and what the caller
receives is a `std::exception`, not a `NetworkException` with the code 3.  The same holds for
every delivered error with a non-zero code; a delivered outcome with the code 0 returns the
delivered message. -/
theorem C16_sendSync_raises_plain_exception :
    mapFind svc0.m_sessions 7 = none
      ∧ sendMessageByNodeID env0 svc0 7 (some msg0) (noError, none)
          = .ok ⟨svc0, [Event.enqueue Callback.sessionCallback disconnectError none none],
              .error Thrown.stdException⟩
      ∧ sendMessageByNodeIDResult disconnectError none
          ≠ .error (Thrown.networkException disconnectError)
      ∧ (∀ (e : NetworkException) (m : Option P2PMessage), e.errorCode ≠ 0 →
          sendMessageByNodeIDResult e m = .error Thrown.stdException)
      ∧ (∀ (e : NetworkException) (m : Option P2PMessage), e.errorCode = 0 →
          sendMessageByNodeIDResult e m = .ok m) := by
  refine ⟨rfl, rfl, ?_, ?_, ?_⟩
  · intro h
    have h2 : sendMessageByNodeIDResult disconnectError none = .error Thrown.stdException := rfl
    rw [h2] at h
    cases h
  · intro e m he
    simp [sendMessageByNodeIDResult, he]
  · intro e m he
    simp [sendMessageByNodeIDResult, he]

/-! ## Lemmas on the fire-and-forget senders -/

theorem sendTargets_append (a b : List Event) :
    sendTargets (a ++ b) = sendTargets a ++ sendTargets b := by
  induction a with
  | nil => rfl
  | cons ev rest ih =>
    cases ev <;> simp [sendTargets, ih]

theorem asyncSendMessageByNodeID_empty_callback (env : Env) (svc : Service) (nodeID : NodeID)
    (m : P2PMessage) (options : Options) :
    ∃ r sent,
      asyncSendMessageByNodeID env svc nodeID (some m) Callback.empty options = .ok r
        ∧ r.svc.m_sessions = svc.m_sessions
        ∧ r.message = some sent
        ∧ r.events = match activeSession env svc.m_sessions nodeID with
            | some p => [Event.asyncSendMessage p sent options Callback.empty]
            | none => [] := by
  cases hf : mapFind svc.m_sessions nodeID with
  | none =>
    refine ⟨⟨svc, [], some m⟩, m, ?_, rfl, rfl, ?_⟩
    · simp [asyncSendMessageByNodeID, hf]
    · simp [activeSession, hf]
  | some p =>
    by_cases ha : env.actived p = true
    · rw [asyncSendMessageByNodeID_active env svc nodeID m Callback.empty options p hf ha]
      by_cases hs : m.seq = 0
      · rw [if_pos hs]
        refine ⟨_, _, rfl, rfl, rfl, ?_⟩
        simp [activeSession, hf, ha]
      · rw [if_neg hs]
        refine ⟨_, _, rfl, rfl, rfl, ?_⟩
        simp [activeSession, hf, ha]
    · refine ⟨⟨svc, [], some m⟩, m, ?_, rfl, rfl, ?_⟩
      · simp [asyncSendMessageByNodeID, hf, ha]
      · simp [activeSession, hf, ha]

theorem sendToEach_spec (env : Env) (nodeIDs : List NodeID) :
    ∀ (svc : Service) (m : P2PMessage),
      ∃ r sent,
        sendToEach env svc (some m) nodeIDs = .ok r
          ∧ r.svc.m_sessions = svc.m_sessions
          ∧ r.message = some sent
          ∧ sendTargets r.events = nodeIDs.filterMap (activeSession env svc.m_sessions)
          ∧ ∀ ev ∈ r.events, ∃ p msg,
              ev = Event.asyncSendMessage p msg env.defaultOptions Callback.empty := by
  induction nodeIDs with
  | nil =>
    intro svc m
    exact ⟨⟨svc, [], some m⟩, m, rfl, rfl, rfl, rfl, by simp⟩
  | cons n rest ih =>
    intro svc m
    obtain ⟨r1, sent1, h1, hs1, hm1, he1⟩ :=
      asyncSendMessageByNodeID_empty_callback env svc n m env.defaultOptions
    obtain ⟨r2, sent2, h2, hs2, hm2, ht2, he2⟩ := ih r1.svc sent1
    refine ⟨⟨r2.svc, r1.events ++ r2.events, r2.message⟩, sent2, ?_, ?_, hm2, ?_, ?_⟩
    · unfold sendToEach
      rw [h1]
      dsimp only
      rw [hm1, h2]
    · dsimp only
      rw [hs2, hs1]
    · dsimp only
      rw [sendTargets_append, ht2, hs1, List.filterMap_cons, he1]
      cases activeSession env svc.m_sessions n <;> simp [sendTargets]
    · intro ev hev
      dsimp only at hev
      rcases List.mem_append.mp hev with h | h
      · rw [he1] at h
        cases hact : activeSession env svc.m_sessions n with
        | none => simp [hact] at h
        | some p =>
          simp only [hact, List.mem_singleton] at h
          exact ⟨p, sent1, h⟩
      · exact he2 ev h

theorem filterMap_activeSession_keys (env : Env) (all : List (NodeID × P2PSession))
    (sub : List (NodeID × P2PSession))
    (h : ∀ it ∈ sub, mapFind all it.1 = some it.2) :
    (mapKeys sub).filterMap (activeSession env all)
      = (sub.filter (fun it => env.actived it.2)).map Prod.snd := by
  induction sub with
  | nil => rfl
  | cons hd tl ih =>
    obtain ⟨k, q⟩ := hd
    have hk : mapFind all k = some q := h (k, q) (List.mem_cons_self _ _)
    have htl := ih (fun it hit => h it (List.mem_cons_of_mem _ hit))
    simp only [mapKeys, List.map_cons] at htl ⊢
    rw [List.filterMap_cons, List.filter_cons]
    by_cases ha : env.actived q = true
    · simp [activeSession, hk, ha, htl]
    · simp [activeSession, hk, ha, htl]

theorem asyncSendMessageByNodeID_empty_callback_message (env : Env) (svc : Service)
    (nodeID : NodeID) (m : P2PMessage) (options : Options) (r : SendOutcome)
    (h : asyncSendMessageByNodeID env svc nodeID (some m) Callback.empty options = .ok r) :
    svc.seqCalls ≤ r.svc.seqCalls
      ∧ (∃ cur, r.message = some cur ∧ IsSameObject env svc m cur)
      ∧ ∀ ev ∈ r.events, ∃ p msg,
          ev = Event.asyncSendMessage p msg options Callback.empty
            ∧ IsSentFormOf env svc m msg := by
  cases hf : mapFind svc.m_sessions nodeID with
  | none =>
    have h2 : asyncSendMessageByNodeID env svc nodeID (some m) Callback.empty options
        = .ok ⟨svc, [], some m⟩ := by
      simp [asyncSendMessageByNodeID, hf]
    rw [h2] at h
    cases h
    exact ⟨Nat.le_refl _, ⟨m, rfl, rfl, rfl, rfl, fun _ => rfl, fun h0 => Or.inl h0⟩,
      fun ev hev => by simp at hev⟩
  | some p =>
    by_cases ha : env.actived p = true
    · rw [asyncSendMessageByNodeID_active env svc nodeID m Callback.empty options p hf ha] at h
      by_cases hs : m.seq = 0
      · rw [if_pos hs] at h
        cases h
        refine ⟨Nat.le_succ _, ⟨_, rfl, rfl, rfl, rfl, fun h0 => absurd hs h0,
          fun _ => Or.inr ⟨svc.seqCalls, Nat.le_refl _, rfl⟩⟩, ?_⟩
        intro ev hev
        simp only [List.mem_singleton] at hev
        exact ⟨p, _, hev, rfl, rfl, rfl, rfl, fun h0 => absurd hs h0,
          fun _ => ⟨svc.seqCalls, Nat.le_refl _, rfl⟩⟩
      · rw [if_neg hs] at h
        cases h
        refine ⟨Nat.le_refl _, ⟨_, rfl, rfl, rfl, rfl, fun _ => rfl,
          fun h0 => absurd h0 hs⟩, ?_⟩
        intro ev hev
        simp only [List.mem_singleton] at hev
        exact ⟨p, _, hev, rfl, rfl, rfl, rfl, fun _ => rfl, fun h0 => absurd h0 hs⟩
    · have h2 : asyncSendMessageByNodeID env svc nodeID (some m) Callback.empty options
          = .ok ⟨svc, [], some m⟩ := by
        simp [asyncSendMessageByNodeID, hf, ha]
      rw [h2] at h
      cases h
      exact ⟨Nat.le_refl _, ⟨m, rfl, rfl, rfl, rfl, fun _ => rfl, fun h0 => Or.inl h0⟩,
        fun ev hev => by simp at hev⟩

theorem isSentFormOf_of_sameObject (env : Env) (svc svc1 : Service) (m cur msg : P2PMessage)
    (hle : svc.seqCalls ≤ svc1.seqCalls) (hcur : IsSameObject env svc m cur)
    (hmsg : IsSentFormOf env svc1 cur msg) : IsSentFormOf env svc m msg := by
  obtain ⟨c1, c2, c3, c4, c5⟩ := hcur
  obtain ⟨s1, s2, s3, s4, s5, s6⟩ := hmsg
  refine ⟨s1.trans c1, s2.trans c2, s3.trans c3, ?_, ?_, ?_⟩
  · rw [s4, c1]
  · intro hm
    have hc := c4 hm
    rw [s5 (hc ▸ hm), hc]
  · intro hm
    rcases c5 hm with hc | ⟨n, hn, hc⟩
    · obtain ⟨n, hn, hs⟩ := s6 hc
      exact ⟨n, Nat.le_trans hle hn, hs⟩
    · by_cases h0 : cur.seq = 0
      · obtain ⟨k, hk, hs⟩ := s6 h0
        exact ⟨k, Nat.le_trans hle hk, hs⟩
      · exact ⟨n, hn, (s5 h0).trans hc⟩

theorem isSameObject_trans (env : Env) (svc svc1 : Service) (m cur last : P2PMessage)
    (hle : svc.seqCalls ≤ svc1.seqCalls) (hcur : IsSameObject env svc m cur)
    (hlast : IsSameObject env svc1 cur last) : IsSameObject env svc m last := by
  obtain ⟨c1, c2, c3, c4, c5⟩ := hcur
  obtain ⟨s1, s2, s3, s4, s5⟩ := hlast
  refine ⟨s1.trans c1, s2.trans c2, s3.trans c3, ?_, ?_⟩
  · intro hm
    have hc := c4 hm
    rw [s4 (hc ▸ hm), hc]
  · intro hm
    rcases c5 hm with hc | ⟨n, hn, hc⟩
    · rcases s5 hc with hl | ⟨k, hk, hl⟩
      · exact Or.inl hl
      · exact Or.inr ⟨k, Nat.le_trans hle hk, hl⟩
    · by_cases h0 : cur.seq = 0
      · rcases s5 h0 with hl | ⟨k, hk, hl⟩
        · exact Or.inl hl
        · exact Or.inr ⟨k, Nat.le_trans hle hk, hl⟩
      · exact Or.inr ⟨n, hn, (s4 h0).trans hc⟩

theorem sendToEach_messages (env : Env) (nodeIDs : List NodeID) :
    ∀ (svc : Service) (m : P2PMessage) (r : SendOutcome),
      sendToEach env svc (some m) nodeIDs = .ok r →
        svc.seqCalls ≤ r.svc.seqCalls
          ∧ (∃ cur, r.message = some cur ∧ IsSameObject env svc m cur)
          ∧ ∀ ev ∈ r.events, ∃ p msg,
              ev = Event.asyncSendMessage p msg env.defaultOptions Callback.empty
                ∧ IsSentFormOf env svc m msg := by
  induction nodeIDs with
  | nil =>
    intro svc m r h
    cases h
    exact ⟨Nat.le_refl _, ⟨m, rfl, rfl, rfl, rfl, fun _ => rfl, fun h0 => Or.inl h0⟩,
      fun ev hev => by simp at hev⟩
  | cons n rest ih =>
    intro svc m r h
    unfold sendToEach at h
    cases h1 : asyncSendMessageByNodeID env svc n (some m) Callback.empty env.defaultOptions with
    | error f =>
      rw [h1] at h
      cases h
    | ok r1 =>
      rw [h1] at h
      dsimp only at h
      obtain ⟨hle1, ⟨cur1, hm1, hobj1⟩, hev1⟩ :=
        asyncSendMessageByNodeID_empty_callback_message env svc n m env.defaultOptions r1 h1
      rw [hm1] at h
      cases h2 : sendToEach env r1.svc (some cur1) rest with
      | error f =>
        rw [h2] at h
        cases h
      | ok r2 =>
        rw [h2] at h
        dsimp only at h
        cases h
        obtain ⟨hle2, ⟨cur2, hm2, hobj2⟩, hev2⟩ := ih r1.svc cur1 r2 h2
        refine ⟨Nat.le_trans hle1 hle2,
          ⟨cur2, hm2, isSameObject_trans env svc r1.svc m cur1 cur2 hle1 hobj1 hobj2⟩, ?_⟩
        intro ev hev
        rcases List.mem_append.mp hev with hin | hin
        · exact hev1 ev hin
        · obtain ⟨p, msg, hp, hform⟩ := hev2 ev hin
          exact ⟨p, msg, hp,
            isSentFormOf_of_sameObject env svc r1.svc m cur1 msg hle1 hobj1 hform⟩

/-! ## C17 -/

/-- C17: for every registry (keys pairwise distinct) and every message,
`asyncBroadcastMessage` returns normally; the sessions whose transport is handed the message
are, in registry order, exactly the sessions of the registry entries that are active, one
call per entry, and none that is inactive.  Every outside call it makes is such a transport
send, with an empty callback, and what it hands over is the message of the caller: the same
payload, protocol id and packet kind, the length recomputed from the payload, and the
sequence of the message when that is not 0, otherwise a value returned by `newSeq()` during
the broadcast.  Nothing is enqueued or called, and the continuation of a send with an empty
callback calls nothing. -/
theorem C17_broadcast_reaches_active_sessions (env : Env) (svc : Service) (m : P2PMessage)
    (options : Options) (hkeys : (mapKeys svc.m_sessions).Nodup) :
    ∃ r,
      asyncBroadcastMessage env svc (some m) options = .ok r
        ∧ sendTargets r.events
            = (svc.m_sessions.filter (fun it => env.actived it.2)).map Prod.snd
        ∧ (∀ ev ∈ r.events, ∃ p msg,
            ev = Event.asyncSendMessage p msg env.defaultOptions Callback.empty
              ∧ msg.buffer = m.buffer
              ∧ msg.protocolID = m.protocolID
              ∧ msg.isRequestPacket = m.isRequestPacket
              ∧ msg.length = (env.HEADER_LENGTH + m.buffer.length) % 2 ^ 32
              ∧ (m.seq ≠ 0 → msg.seq = m.seq)
              ∧ (m.seq = 0 → ∃ n, svc.seqCalls ≤ n ∧ msg.seq = env.newSeq n))
        ∧ (∀ p e msg, sendContinuation p Callback.empty e msg = []) := by
  obtain ⟨r, sent, h, _, _, ht, _⟩ := sendToEach_spec env (mapKeys svc.m_sessions) svc m
  obtain ⟨_, _, hev⟩ := sendToEach_messages env (mapKeys svc.m_sessions) svc m r h
  refine ⟨r, h, ?_, ?_, fun p e msg => rfl⟩
  · rw [ht]
    exact filterMap_activeSession_keys env svc.m_sessions svc.m_sessions
      (fun it hit => mapFind_of_mem _ _ _ hkeys hit)
  · intro ev hin
    obtain ⟨p, msg, hp, hform⟩ := hev ev hin
    exact ⟨p, msg, hp, hform⟩

/-- C17 at a concrete input: a broadcast of `msg0` on `svcABC`, where only the session of
identity 3 is active: one transport send, of `msg0` with the length 15 and the sequence 100,
the first value of the allocator. -/
theorem C17_broadcast_reaches_active_sessions_witness :
    (mapKeys svcABC.m_sessions).Nodup
      ∧ (svcABC.m_sessions.filter (fun it => env0.actived it.2)).map Prod.snd
          = [⟨10, ⟨3, "10.0.0.3", 30303⟩, 3⟩]
      ∧ asyncBroadcastMessage env0 svcABC (some msg0) opts0
          = .ok ⟨{ svcABC with seqCalls := 1 },
              [Event.asyncSendMessage ⟨10, ⟨3, "10.0.0.3", 30303⟩, 3⟩
                { msg0 with length := 15, seq := 100 } env0.defaultOptions Callback.empty],
              some { msg0 with length := 15, seq := 100 }⟩
      ∧ ∃ r,
          asyncBroadcastMessage env0 svcABC (some msg0) opts0 = .ok r
            ∧ sendTargets r.events
                = (svcABC.m_sessions.filter (fun it => env0.actived it.2)).map Prod.snd
            ∧ (∀ ev ∈ r.events, ∃ p msg,
                ev = Event.asyncSendMessage p msg env0.defaultOptions Callback.empty
                  ∧ msg.buffer = msg0.buffer
                  ∧ msg.protocolID = msg0.protocolID
                  ∧ msg.isRequestPacket = msg0.isRequestPacket
                  ∧ msg.length = (env0.HEADER_LENGTH + msg0.buffer.length) % 2 ^ 32
                  ∧ (msg0.seq ≠ 0 → msg.seq = msg0.seq)
                  ∧ (msg0.seq = 0 → ∃ n, svcABC.seqCalls ≤ n ∧ msg.seq = env0.newSeq n))
            ∧ (∀ p e msg, sendContinuation p Callback.empty e msg = []) :=
  ⟨by decide, by decide, rfl,
    C17_broadcast_reaches_active_sessions env0 svcABC msg0 opts0 (by decide)⟩

/-! ## C18 -/

/-- C18: for every registry, every list of identities and every message,
`asyncMulticastMessageByNodeIDList` returns normally; the sessions whose transport is handed
the message are, in list order, the active sessions of the listed identities, one call per
occurrence of an identity that has an active session, whatever else the list holds; every
outside call it makes is such a transport send, with an empty callback, so nothing is
enqueued or called, and the continuation of a send with an empty callback calls nothing. -/
theorem C18_multicast_by_list (env : Env) (svc : Service) (nodeIDs : List NodeID)
    (m : P2PMessage) :
    ∃ r,
      asyncMulticastMessageByNodeIDList env svc nodeIDs (some m) = .ok r
        ∧ sendTargets r.events = nodeIDs.filterMap (activeSession env svc.m_sessions)
        ∧ (∀ ev ∈ r.events, ∃ p msg,
            ev = Event.asyncSendMessage p msg env.defaultOptions Callback.empty)
        ∧ (∀ p e msg, sendContinuation p Callback.empty e msg = []) := by
  obtain ⟨r, sent, h, _, _, ht, he⟩ := sendToEach_spec env nodeIDs svc m
  exact ⟨r, h, ht, he, fun p e msg => rfl⟩

/-- C18 at a concrete input: on `svcABC` the list 1, 3, 8, 3 (1 inactive, 8 absent, 3 active
and listed twice) gives two transport sends, both to the session of identity 3. -/
theorem C18_multicast_by_list_witness :
    [1, 3, 8, 3].filterMap (activeSession env0 svcABC.m_sessions)
        = [⟨10, ⟨3, "10.0.0.3", 30303⟩, 3⟩, ⟨10, ⟨3, "10.0.0.3", 30303⟩, 3⟩]
      ∧ ∃ r,
          asyncMulticastMessageByNodeIDList env0 svcABC [1, 3, 8, 3] (some msg0) = .ok r
            ∧ sendTargets r.events
                = [1, 3, 8, 3].filterMap (activeSession env0 svcABC.m_sessions)
            ∧ (∀ ev ∈ r.events, ∃ p msg,
                ev = Event.asyncSendMessage p msg env0.defaultOptions Callback.empty)
            ∧ (∀ p e msg, sendContinuation p Callback.empty e msg = []) :=
  ⟨by decide, C18_multicast_by_list env0 svcABC [1, 3, 8, 3] msg0⟩

/-! ## C19 -/

/-- C19, the code at a failing input: the candidates for the topic "t" in `svcAC` are the
identities 1 (session not active) and 3 (session active), and the first draw picks 1.  The
first attempt is made with the message of the caller, `msg0`, and fails; the `TopicStatus`
object holds `msg0` in `m_message`.  The retry, run by the thread-pool task with the null
message of the failure, is the call `asyncSendMessageByNodeID(3, msg, ...)` with that null
`msg`, which dereferences it; the same call with the message of the caller would hand `msg0`,
length and sequence set, to the transport of identity 3. -/
theorem C19_retry_forwards_response_message :
    getPeersByTopic env0 svcAC "t" = [1, 3]
      ∧ ∃ r1,
          asyncSendMessageByTopic env0 svcAC 0 "t" (some msg0) (Callback.user 9) opts0 = .ok r1
          ∧ r1.events = [Event.enqueue (Callback.topicStatus 0) disconnectError none none]
          ∧ r1.svc.topicStatusObjs = [⟨1, [3], Callback.user 9, some msg0, opts0⟩]
          ∧ runCallback env0 r1.svc 0 (Callback.topicStatus 0) disconnectError none none
              = asyncSendMessageByNodeID env0
                  { r1.svc with topicStatusObjs := [⟨3, [], Callback.user 9, some msg0, opts0⟩] }
                  3 none (Callback.topicStatus 0) opts0
          ∧ runCallback env0 r1.svc 0 (Callback.topicStatus 0) disconnectError none none
              = .error Fault.nullDeref
          ∧ ∃ r2,
              asyncSendMessageByNodeID env0
                  { r1.svc with topicStatusObjs := [⟨3, [], Callback.user 9, some msg0, opts0⟩] }
                  3 (some msg0) (Callback.topicStatus 0) opts0 = .ok r2
              ∧ r2.events
                  = [Event.asyncSendMessage ⟨10, ⟨3, "10.0.0.3", 30303⟩, 3⟩
                      { msg0 with length := 15, seq := 100 } opts0 (Callback.topicStatus 0)] :=
  ⟨rfl, _, rfl, rfl, rfl, rfl, rfl, _, rfl, rfl⟩

/-! ## C20 -/

/-- C20: when the registry has no entry for the identity of the session passed to
`onDisconnect`, or maps that identity to another session object, `onDisconnect` returns the
service as it was, registry and static node table included, and makes no outside call. -/
theorem C20_stale_disconnect_is_noop (svc : Service) (e : NetworkException) (p : P2PSession)
    (h : mapFind svc.m_sessions p.nodeID = none
      ∨ ∃ q, mapFind svc.m_sessions p.nodeID = some q ∧ q.ptr ≠ p.ptr) :
    (onDisconnect svc e p).svc = svc
      ∧ (onDisconnect svc e p).svc.m_sessions = svc.m_sessions
      ∧ (onDisconnect svc e p).svc.m_staticNodes = svc.m_staticNodes
      ∧ (onDisconnect svc e p).events = [] := by
  have hsvc : (onDisconnect svc e p).svc = svc := by
    unfold onDisconnect
    rcases h with h | ⟨q, h, hne⟩
    · rw [h]
    · rw [h]
      simp [hne]
  refine ⟨hsvc, ?_, ?_, onDisconnect_events svc e p⟩
  · rw [hsvc]
  · rw [hsvc]

/-- C20 at a concrete input: `svcOneStatic` maps identity 7 to the session object 10; a
disconnect of an older session object, 4, of the same identity changes nothing. -/
theorem C20_stale_disconnect_is_noop_witness :
    (mapFind svcOneStatic.m_sessions 7 = none
        ∨ ∃ q, mapFind svcOneStatic.m_sessions 7 = some q ∧ q.ptr ≠ 4)
      ∧ (onDisconnect svcOneStatic connectError ⟨4, sess2, 7⟩).svc = svcOneStatic
      ∧ (onDisconnect svcOneStatic connectError ⟨4, sess2, 7⟩).svc.m_sessions
          = svcOneStatic.m_sessions
      ∧ (onDisconnect svcOneStatic connectError ⟨4, sess2, 7⟩).svc.m_staticNodes
          = svcOneStatic.m_staticNodes
      ∧ (onDisconnect svcOneStatic connectError ⟨4, sess2, 7⟩).events = [] :=
  ⟨Or.inr ⟨⟨10, sess1, 7⟩, rfl, by decide⟩,
    C20_stale_disconnect_is_noop svcOneStatic connectError ⟨4, sess2, 7⟩
      (Or.inr ⟨⟨10, sess1, 7⟩, rfl, by decide⟩)⟩

/-! ## C21 -/

theorem length_mapAssign {K V : Type} [DecidableEq K] (m : List (K × V)) (k : K) (v : V) :
    (mapAssign m k v).length = m.length := by
  have h := congrArg List.length (mapKeys_mapAssign m k v)
  simpa [mapKeys] using h

theorem mapInsert_of_none {K V : Type} [DecidableEq K] (m : List (K × V)) (k : K) (v : V)
    (h : mapFind m k = none) : mapInsert m k v = m ++ [(k, v)] := by
  unfold mapInsert
  rw [h]

theorem nodup_mapKeys_mapInsert {K V : Type} [DecidableEq K] (m : List (K × V)) (k : K) (v : V)
    (h : mapFind m k = none) (hn : (mapKeys m).Nodup) : (mapKeys (mapInsert m k v)).Nodup := by
  rw [mapInsert_of_none m k v h]
  have hk : k ∉ mapKeys m := (mapFind_eq_none_iff m k).mp h
  simp only [mapKeys, List.map_append, List.map_cons, List.map_nil] at hk ⊢
  rw [List.nodup_append]
  refine ⟨hn, List.nodup_singleton _, ?_⟩
  intro a ha hb
  rw [List.mem_singleton] at hb
  exact hk (hb ▸ ha)

theorem onConnect_new_session (env : Env) (svc : Service) (e : NetworkException)
    (nodeID : NodeID) (session : SessionFace)
    (he : e.errorCode = 0) (hid : nodeID ≠ svc.id)
    (h : mapFind svc.m_sessions nodeID = none
      ∨ ∃ q, mapFind svc.m_sessions nodeID = some q ∧ env.actived q = false) :
    (onConnect env svc e nodeID session).events
        = [Event.setMessageHandler session ⟨svc.allocated, session, nodeID⟩,
            Event.start ⟨svc.allocated, session, nodeID⟩]
      ∧ (onConnect env svc e nodeID session).svc.m_sessions
          = mapUpsert svc.m_sessions nodeID ⟨svc.allocated, session, nodeID⟩ := by
  rcases h with hf | ⟨q, hf, hact⟩
  · simp [onConnect, he, hid, hf, updateStaticNodes_sessions, mapUpsert]
  · simp [onConnect, he, hid, hf, hact, updateStaticNodes_sessions, mapUpsert]

/-- C21: for an error-free `onConnect(e, nodeID, session)` with `nodeID` different from the
local identity, on a registry that has no entry for `nodeID` or maps it to a session that is
not active.  The call creates one `P2PSession` object that wraps `session` and carries
`nodeID`, installs the message handler and starts it; afterwards the registry maps `nodeID`
to that object, every other identity maps to what it mapped to before, the number of entries
is one more when `nodeID` was absent and the same when it was present, and the keys of the
registry are still pairwise distinct: no identity has two sessions. -/
theorem C21_onConnect_registers_session (env : Env) (svc : Service) (e : NetworkException)
    (nodeID : NodeID) (session : SessionFace)
    (he : e.errorCode = 0) (hid : nodeID ≠ svc.id)
    (hkeys : (mapKeys svc.m_sessions).Nodup)
    (h : mapFind svc.m_sessions nodeID = none
      ∨ ∃ q, mapFind svc.m_sessions nodeID = some q ∧ env.actived q = false) :
    ∃ p : P2PSession,
      p.session = session ∧ p.nodeID = nodeID
        ∧ (onConnect env svc e nodeID session).events
            = [Event.setMessageHandler session p, Event.start p]
        ∧ mapFind (onConnect env svc e nodeID session).svc.m_sessions nodeID = some p
        ∧ (∀ x, x ≠ nodeID →
            mapFind (onConnect env svc e nodeID session).svc.m_sessions x
              = mapFind svc.m_sessions x)
        ∧ (mapFind svc.m_sessions nodeID = none →
            (onConnect env svc e nodeID session).svc.m_sessions.length
              = svc.m_sessions.length + 1)
        ∧ (mapFind svc.m_sessions nodeID ≠ none →
            (onConnect env svc e nodeID session).svc.m_sessions.length
              = svc.m_sessions.length)
        ∧ (mapKeys (onConnect env svc e nodeID session).svc.m_sessions).Nodup := by
  obtain ⟨hev, hs⟩ := onConnect_new_session env svc e nodeID session he hid h
  refine ⟨⟨svc.allocated, session, nodeID⟩, rfl, rfl, hev, ?_, ?_, ?_, ?_, ?_⟩
  · rw [hs]
    exact upsert_find_self _ _ _
  · intro x hx
    rw [hs]
    exact upsert_find_ne _ _ _ _ hx
  · intro hf
    rw [hs]
    unfold mapUpsert
    rw [hf]
    dsimp only
    rw [mapInsert_of_none _ _ _ hf]
    simp
  · intro hf
    rw [hs]
    unfold mapUpsert
    cases hq : mapFind svc.m_sessions nodeID with
    | none => exact absurd hq hf
    | some q => exact length_mapAssign _ _ _
  · rw [hs]
    unfold mapUpsert
    cases hq : mapFind svc.m_sessions nodeID with
    | none => exact nodup_mapKeys_mapInsert _ _ _ hq hkeys
    | some q =>
      dsimp only
      rw [mapKeys_mapAssign]
      exact hkeys

/-- C21 at a concrete input: on `svcInactive`, whose registry maps identity 1 to a session
that is not active, a connection of identity 1 on `sess2` replaces that entry by the new
session object 11, and a connection of the unknown identity 7 adds an entry. -/
theorem C21_onConnect_registers_session_witness :
    noError.errorCode = 0 ∧ (1 : NodeID) ≠ svcInactive.id ∧ (7 : NodeID) ≠ svcInactive.id
      ∧ (mapKeys svcInactive.m_sessions).Nodup
      ∧ mapFind svcInactive.m_sessions 1 = some ⟨1, sess1, 1⟩
      ∧ env0.actived ⟨1, sess1, 1⟩ = false
      ∧ mapFind svcInactive.m_sessions 7 = none
      ∧ (onConnect env0 svcInactive noError 1 sess2).svc.m_sessions = [(1, ⟨11, sess2, 1⟩)]
      ∧ (onConnect env0 svcInactive noError 7 sess2).svc.m_sessions
          = [(1, ⟨1, sess1, 1⟩), (7, ⟨11, sess2, 7⟩)]
      ∧ (∃ p : P2PSession,
          p.session = sess2 ∧ p.nodeID = 1
            ∧ (onConnect env0 svcInactive noError 1 sess2).events
                = [Event.setMessageHandler sess2 p, Event.start p]
            ∧ mapFind (onConnect env0 svcInactive noError 1 sess2).svc.m_sessions 1 = some p
            ∧ (∀ x, x ≠ 1 →
                mapFind (onConnect env0 svcInactive noError 1 sess2).svc.m_sessions x
                  = mapFind svcInactive.m_sessions x)
            ∧ (mapFind svcInactive.m_sessions 1 = none →
                (onConnect env0 svcInactive noError 1 sess2).svc.m_sessions.length
                  = svcInactive.m_sessions.length + 1)
            ∧ (mapFind svcInactive.m_sessions 1 ≠ none →
                (onConnect env0 svcInactive noError 1 sess2).svc.m_sessions.length
                  = svcInactive.m_sessions.length)
            ∧ (mapKeys (onConnect env0 svcInactive noError 1 sess2).svc.m_sessions).Nodup)
      ∧ (∃ p : P2PSession,
          p.session = sess2 ∧ p.nodeID = 7
            ∧ (onConnect env0 svcInactive noError 7 sess2).events
                = [Event.setMessageHandler sess2 p, Event.start p]
            ∧ mapFind (onConnect env0 svcInactive noError 7 sess2).svc.m_sessions 7 = some p
            ∧ (∀ x, x ≠ 7 →
                mapFind (onConnect env0 svcInactive noError 7 sess2).svc.m_sessions x
                  = mapFind svcInactive.m_sessions x)
            ∧ (mapFind svcInactive.m_sessions 7 = none →
                (onConnect env0 svcInactive noError 7 sess2).svc.m_sessions.length
                  = svcInactive.m_sessions.length + 1)
            ∧ (mapFind svcInactive.m_sessions 7 ≠ none →
                (onConnect env0 svcInactive noError 7 sess2).svc.m_sessions.length
                  = svcInactive.m_sessions.length)
            ∧ (mapKeys (onConnect env0 svcInactive noError 7 sess2).svc.m_sessions).Nodup) :=
  ⟨rfl, by decide, by decide, by decide, rfl, rfl, rfl, rfl, rfl,
    C21_onConnect_registers_session env0 svcInactive noError 1 sess2 rfl (by decide)
      (by decide) (Or.inr ⟨⟨1, sess1, 1⟩, rfl, rfl⟩),
    C21_onConnect_registers_session env0 svcInactive noError 7 sess2 rfl (by decide)
      (by decide) (Or.inl rfl)⟩

end P2PService
